import Mathlib

/-!
Control kernel: component registry, port wiring, selection and lifecycle.

A shallow embedding of `BaseKernel` (packages/control_kernel/current/include/BaseKernel.hpp).

* Pointers are addresses (`Nat`); a component is identified by its address.
* The kernel object is the record `Kernel`; every member function is a function
  returning the new kernel value (and the `bool` result where there is one).
* The component hooks whose result the kernel branches on (`enableAspect`,
  `componentStartup`) are answered by a `Hooks` record passed to each call, so the
  answer of a component may differ from one kernel call to the next.
* Two ghost fields record what the kernel does to the components it is handed:
  `bindings` (the port state of the components) and `calls` (the hook calls, in order).
* A hook does not call back into the kernel: besides its result, its only trace in the
  kernel record is the entry in `calls`.
* The statement `X.erase( c )` of the six `unload*` functions is ill-formed as written
  (a component pointer where `std::vector::erase` takes an iterator). It is embedded as
  `X.erase( itl )`, the entry `std::find` located; only the registry after unloading a
  component that is registered more than once depends on this reading.
* The execution strategy (`Extension`) and the two events are not part of the header;
  their calls are recorded in `calls`, the answer of the extension to `initialize` is an
  argument, and the extension owns the `running` flag.
-/

namespace ORO_ControlKernel

/-- Address of a component object. -/
abbrev Comp := Nat

/-- The five data-object channels of the control pattern. -/
inductive Channel where
  | Commands | SetPoints | Models | Inputs | Outputs
  deriving DecidableEq, Repr

/-- A data object: its static type (the channel) and its address. -/
structure DataObject where
  chan : Channel
  addr : Nat
  deriving DecidableEq, Repr

/-- Direction of a port. -/
inductive Direction where
  | read | write
  deriving DecidableEq, Repr

/-- A port binding: (component, data-object reference, direction). -/
structure Binding where
  comp : Comp
  obj : DataObject
  dir : Direction
  deriving DecidableEq, Repr

/-- The calls the kernel makes on the components it is handed, on its extension
(execution strategy) and on its two events. -/
inductive Call where
  | writeTo (c : Comp) (d : DataObject)
  | readFrom (c : Comp) (d : DataObject)
  | disconnect (c : Comp) (d : DataObject)
  | enableAspect (c : Comp)
  | disableAspect (c : Comp)
  | componentStartup (c : Comp)
  | componentShutdown (c : Comp)
  | extensionInitialize
  | extensionStep
  | extensionFinalize
  | baseFinalize
  | kernelStarted
  | kernelStopped
  deriving DecidableEq, Repr

/-- The six component roles. -/
inductive Role where
  | Controller | Generator | Estimator | Sensor | Effector | Support
  deriving DecidableEq, Repr

/-- The five roles that have an active pointer and a `select` operation. -/
inductive SelRole where
  | Controller | Generator | Estimator | Sensor | Effector
  deriving DecidableEq, Repr

/-- The role of a selectable role. -/
def SelRole.toRole : SelRole → Role
  | .Controller => .Controller
  | .Generator => .Generator
  | .Estimator => .Estimator
  | .Sensor => .Sensor
  | .Effector => .Effector

/-- Results of the component hooks the kernel branches on, for one kernel call. -/
structure Hooks where
  enableAspect : Comp → Bool
  componentStartup : Comp → Bool

/-- The data members of `BaseKernel` (lines 1006-1055), the `running` flag of its
extension, and the two ghost fields `bindings` and `calls`. -/
structure Kernel where
  running : Bool
  dummy_controller : Comp
  dummy_generator : Comp
  dummy_estimator : Comp
  dummy_effector : Comp
  dummy_sensor : Comp
  controller : Comp
  generator : Comp
  estimator : Comp
  effector : Comp
  sensor : Comp
  local_setpoints : DataObject
  local_commands : DataObject
  local_inputs : DataObject
  local_models : DataObject
  local_outputs : DataObject
  setpoints : DataObject
  commands : DataObject
  inputs : DataObject
  models : DataObject
  outputs : DataObject
  controllers : List Comp
  generators : List Comp
  effectors : List Comp
  estimators : List Comp
  sensors : List Comp
  supports : List Comp
  externalInputs : Bool
  externalOutputs : Bool
  externalModels : Bool
  externalSetPoints : Bool
  externalCommands : Bool
  bindings : List Binding
  calls : List Call
  deriving DecidableEq, Repr

/-! ## Collaborators that are not part of BaseKernel.hpp -/

/-- Modelled from the spec: `isRunning()` of the execution strategy (KernelInterfaces.hpp
is not among the sources); the running predicate reads the `running` flag that the
constructor of `BaseKernel` toggles. -/
def isRunning (k : Kernel) : Bool := k.running

/-- Modelled from the spec: adding a port binding is idempotent per
(component, slot, direction) triple (section 4.1). -/
def addBinding (b : Binding) (bs : List Binding) : List Binding :=
  if b ∈ bs then bs else bs ++ [b]

/-- Modelled from the spec: removing the bindings of component `c` on slot `d`
(section 4.1: disconnect always succeeds and is the inverse of the bind). -/
def removeBindings (c : Comp) (d : DataObject) (bs : List Binding) : List Binding :=
  bs.filter (fun b => !(b.comp == c && b.obj == d))

/-- Modelled from the spec: the port operation `c->writeTo(d)` (PortInterfaces.hpp is
not among the sources): binds `c` as writer of `d`, no other effect. -/
def writeTo (c : Comp) (d : DataObject) (k : Kernel) : Kernel :=
  { k with bindings := addBinding ⟨c, d, .write⟩ k.bindings,
           calls := k.calls ++ [.writeTo c d] }

/-- Modelled from the spec: the port operation `c->readFrom(d)`: binds `c` as reader
of `d`, no other effect. -/
def readFrom (c : Comp) (d : DataObject) (k : Kernel) : Kernel :=
  { k with bindings := addBinding ⟨c, d, .read⟩ k.bindings,
           calls := k.calls ++ [.readFrom c d] }

/-- Modelled from the spec: the port operation `c->disconnect(d)`: removes the binding
of `c` on `d`, no other effect. -/
def disconnect (c : Comp) (d : DataObject) (k : Kernel) : Kernel :=
  { k with bindings := removeBindings c d k.bindings,
           calls := k.calls ++ [.disconnect c d] }

/-- Modelled from the spec: the hook `c->enableAspect(kernel)`; its result is the
answer of the component, the kernel records the call. -/
def enableAspect (h : Hooks) (c : Comp) (k : Kernel) : Bool × Kernel :=
  (h.enableAspect c, { k with calls := k.calls ++ [.enableAspect c] })

/-- Modelled from the spec: the hook `c->disableAspect()`. -/
def disableAspect (c : Comp) (k : Kernel) : Kernel :=
  { k with calls := k.calls ++ [.disableAspect c] }

/-- Modelled from the spec: the hook `c->componentStartup()`. -/
def componentStartup (h : Hooks) (c : Comp) (k : Kernel) : Bool × Kernel :=
  (h.componentStartup c, { k with calls := k.calls ++ [.componentStartup c] })

/-- Modelled from the spec: the hook `c->componentShutdown()`. -/
def componentShutdown (c : Comp) (k : Kernel) : Kernel :=
  { k with calls := k.calls ++ [.componentShutdown c] }

/-! ## Controller (lines 359-421) -/

/-- `bool loadController(DefaultController* c)`. -/
def loadController (h : Hooks) (k : Kernel) (c : Comp) : Bool × Kernel :=
  if isRunning k then (false, k)
  else
    let k1 := writeTo c k.outputs k
    let k2 := readFrom c k1.setpoints k1
    let k3 := readFrom c k2.models k2
    let k4 := readFrom c k3.inputs k3
    let r := enableAspect h c k4
    if !r.1 then
      let k5 := disconnect c r.2.models r.2
      let k6 := disconnect c k5.outputs k5
      let k7 := disconnect c k6.setpoints k6
      let k8 := disconnect c k7.inputs k7
      (false, k8)
    else
      (true, { r.2 with controllers := r.2.controllers ++ [c] })

/-- `bool unloadController(DefaultController* c)`. Line 387, `controllers.erase( c )`,
is ill-formed as written: it passes the component pointer where `std::vector::erase`
takes an iterator. The embedding reads it as `controllers.erase( itl )`, with the
iterator `std::find` returned on the line before: the first entry equal to `c` is
removed. Removing every entry equal to `c` would be another reading; the two differ only
on a registry that holds `c` more than once. -/
def unloadController (k : Kernel) (c : Comp) : Bool × Kernel :=
  if isRunning k then (false, k)
  else if c ∈ k.controllers then
    let k1 := { k with controllers := k.controllers.erase c }
    let k2 := disableAspect c k1
    let k3 := disconnect c k2.models k2
    let k4 := disconnect c k3.outputs k3
    let k5 := disconnect c k4.setpoints k4
    let k6 := disconnect c k5.inputs k5
    (true, k6)
  else (false, k)

/-- `bool isLoadedController(DefaultController* c)`. -/
def isLoadedController (k : Kernel) (c : Comp) : Bool :=
  decide (c ∈ k.controllers)

/-- `bool selectController(DefaultController* c)`. -/
def selectController (h : Hooks) (k : Kernel) (c : Comp) : Bool × Kernel :=
  if !isLoadedController k c || !isRunning k then (false, k)
  else
    let k1 := componentShutdown k.controller k
    let r := componentStartup h c k1
    let k3 :=
      if r.1 then { r.2 with controller := c }
      else (componentStartup h r.2.controller r.2).2
    (decide (k3.controller = c), k3)

/-! ## Generator (lines 479-541) -/

/-- `bool loadGenerator(DefaultGenerator* c)`. -/
def loadGenerator (h : Hooks) (k : Kernel) (c : Comp) : Bool × Kernel :=
  if isRunning k then (false, k)
  else
    let k1 := writeTo c k.setpoints k
    let k2 := readFrom c k1.models k1
    let k3 := readFrom c k2.inputs k2
    let k4 := readFrom c k3.commands k3
    let r := enableAspect h c k4
    if !r.1 then
      let k5 := disconnect c r.2.models r.2
      let k6 := disconnect c k5.commands k5
      let k7 := disconnect c k6.setpoints k6
      let k8 := disconnect c k7.inputs k7
      (false, k8)
    else
      (true, { r.2 with generators := r.2.generators ++ [c] })

/-- `bool unloadGenerator(DefaultGenerator* c)`. Line 507, `generators.erase( c )`, is
ill-formed as written (a component pointer where `std::vector::erase` takes an
iterator); it is read as `generators.erase( itl )`, the first entry equal to `c`, as in
`unloadController`. -/
def unloadGenerator (k : Kernel) (c : Comp) : Bool × Kernel :=
  if isRunning k then (false, k)
  else if c ∈ k.generators then
    let k1 := { k with generators := k.generators.erase c }
    let k2 := disableAspect c k1
    let k3 := disconnect c k2.models k2
    let k4 := disconnect c k3.setpoints k3
    let k5 := disconnect c k4.commands k4
    let k6 := disconnect c k5.inputs k5
    (true, k6)
  else (false, k)

/-- `bool isLoadedGenerator(DefaultGenerator* c)`. -/
def isLoadedGenerator (k : Kernel) (c : Comp) : Bool :=
  decide (c ∈ k.generators)

/-- `bool selectGenerator(DefaultGenerator* c)`. -/
def selectGenerator (h : Hooks) (k : Kernel) (c : Comp) : Bool × Kernel :=
  if !isLoadedGenerator k c || !isRunning k then (false, k)
  else
    let k1 := componentShutdown k.generator k
    let r := componentStartup h c k1
    let k3 :=
      if r.1 then { r.2 with generator := c }
      else (componentStartup h r.2.generator r.2).2
    (decide (k3.generator = c), k3)

/-! ## Estimator (lines 599-655) -/

/-- `bool loadEstimator(DefaultEstimator* c)`. -/
def loadEstimator (h : Hooks) (k : Kernel) (c : Comp) : Bool × Kernel :=
  if isRunning k then (false, k)
  else
    let k1 := writeTo c k.models k
    let k2 := readFrom c k1.inputs k1
    let r := enableAspect h c k2
    if !r.1 then
      let k3 := disconnect c r.2.models r.2
      let k4 := disconnect c k3.inputs k3
      (false, k4)
    else
      (true, { r.2 with estimators := r.2.estimators ++ [c] })

/-- `bool unloadEstimator(DefaultEstimator* c)`. Line 623, `estimators.erase( c )`, is
ill-formed as written (a component pointer where `std::vector::erase` takes an
iterator); it is read as `estimators.erase( itl )`, the first entry equal to `c`, as in
`unloadController`. -/
def unloadEstimator (k : Kernel) (c : Comp) : Bool × Kernel :=
  if isRunning k then (false, k)
  else if c ∈ k.estimators then
    let k1 := { k with estimators := k.estimators.erase c }
    let k2 := disableAspect c k1
    let k3 := disconnect c k2.models k2
    let k4 := disconnect c k3.inputs k3
    (true, k4)
  else (false, k)

/-- `bool isLoadedEstimator(DefaultEstimator* c)`. -/
def isLoadedEstimator (k : Kernel) (c : Comp) : Bool :=
  decide (c ∈ k.estimators)

/-- `bool selectEstimator(DefaultEstimator* c)`. -/
def selectEstimator (h : Hooks) (k : Kernel) (c : Comp) : Bool × Kernel :=
  if !isLoadedEstimator k c || !isRunning k then (false, k)
  else
    let k1 := componentShutdown k.estimator k
    let r := componentStartup h c k1
    let k3 :=
      if r.1 then { r.2 with estimator := c }
      else (componentStartup h r.2.estimator r.2).2
    (decide (k3.estimator = c), k3)

/-! ## Sensor (lines 713-766) -/

/-- `bool loadSensor(DefaultSensor* c)`. -/
def loadSensor (h : Hooks) (k : Kernel) (c : Comp) : Bool × Kernel :=
  if isRunning k then (false, k)
  else
    let k1 := writeTo c k.inputs k
    let r := enableAspect h c k1
    if !r.1 then
      let k2 := disconnect c r.2.inputs r.2
      (false, k2)
    else
      (true, { r.2 with sensors := r.2.sensors ++ [c] })

/-- `bool unloadSensor(DefaultSensor* c)`. Line 735, `sensors.erase( c )`, is
ill-formed as written (a component pointer where `std::vector::erase` takes an
iterator); it is read as `sensors.erase( itl )`, the first entry equal to `c`, as in
`unloadController`. -/
def unloadSensor (k : Kernel) (c : Comp) : Bool × Kernel :=
  if isRunning k then (false, k)
  else if c ∈ k.sensors then
    let k1 := { k with sensors := k.sensors.erase c }
    let k2 := disableAspect c k1
    let k3 := disconnect c k2.inputs k2
    (true, k3)
  else (false, k)

/-- `bool isLoadedSensor(DefaultSensor* c)`. -/
def isLoadedSensor (k : Kernel) (c : Comp) : Bool :=
  decide (c ∈ k.sensors)

/-- `bool selectSensor(DefaultSensor* c)`. -/
def selectSensor (h : Hooks) (k : Kernel) (c : Comp) : Bool × Kernel :=
  if !isLoadedSensor k c || !isRunning k then (false, k)
  else
    let k1 := componentShutdown k.sensor k
    let r := componentStartup h c k1
    let k3 :=
      if r.1 then { r.2 with sensor := c }
      else (componentStartup h r.2.sensor r.2).2
    (decide (k3.sensor = c), k3)

/-! ## Effector (lines 824-877) -/

/-- `bool loadEffector(DefaultEffector* c)`. -/
def loadEffector (h : Hooks) (k : Kernel) (c : Comp) : Bool × Kernel :=
  if isRunning k then (false, k)
  else
    let k1 := readFrom c k.outputs k
    let r := enableAspect h c k1
    if !r.1 then
      let k2 := disconnect c r.2.outputs r.2
      (false, k2)
    else
      (true, { r.2 with effectors := r.2.effectors ++ [c] })

/-- `bool unloadEffector(DefaultEffector* c)`. Line 846, `effectors.erase( c )`, is
ill-formed as written (a component pointer where `std::vector::erase` takes an
iterator); it is read as `effectors.erase( itl )`, the first entry equal to `c`, as in
`unloadController`. -/
def unloadEffector (k : Kernel) (c : Comp) : Bool × Kernel :=
  if isRunning k then (false, k)
  else if c ∈ k.effectors then
    let k1 := { k with effectors := k.effectors.erase c }
    let k2 := disableAspect c k1
    let k3 := disconnect c k2.outputs k2
    (true, k3)
  else (false, k)

/-- `bool isLoadedEffector(DefaultEffector* c)`. -/
def isLoadedEffector (k : Kernel) (c : Comp) : Bool :=
  decide (c ∈ k.effectors)

/-- `bool selectEffector(DefaultEffector* c)`. -/
def selectEffector (h : Hooks) (k : Kernel) (c : Comp) : Bool × Kernel :=
  if !isLoadedEffector k c || !isRunning k then (false, k)
  else
    let k1 := componentShutdown k.effector k
    let r := componentStartup h c k1
    let k3 :=
      if r.1 then { r.2 with effector := c }
      else (componentStartup h r.2.effector r.2).2
    (decide (k3.effector = c), k3)

/-! ## Support (lines 921-950) -/

/-- `bool loadSupport(DefaultSupport* c)`. -/
def loadSupport (h : Hooks) (k : Kernel) (c : Comp) : Bool × Kernel :=
  if isRunning k then (false, k)
  else
    let r := enableAspect h c k
    if !r.1 then (false, r.2)
    else (true, { r.2 with supports := r.2.supports ++ [c] })

/-- `bool unloadSupport(DefaultSupport* c)`. Line 941, `supports.erase( c )`, is
ill-formed as written (a component pointer where `std::vector::erase` takes an
iterator); it is read as `supports.erase( itl )`, the first entry equal to `c`, as in
`unloadController`. -/
def unloadSupport (k : Kernel) (c : Comp) : Bool × Kernel :=
  if isRunning k then (false, k)
  else if c ∈ k.supports then
    let k1 := { k with supports := k.supports.erase c }
    let k2 := disableAspect c k1
    (true, k2)
  else (false, k)

/-- `bool isLoadedSupport(DefaultSupport* c)`. -/
def isLoadedSupport (k : Kernel) (c : Comp) : Bool :=
  decide (c ∈ k.supports)

/-! ## Name-based operations (lines 310-357, 430-477, 550-597, 664-711, 775-822, 886-919) -/

/-- The name servers of the component classes (`DefaultController::nameserver`, ...):
per role, the component registered under a name, if any. They are static members of
classes outside this header and are taken as a parameter. -/
abbrev NameServer := Role → String → Option Comp

/-- `nameserver.getObjectByName( name )` of the role: a null pointer is `none`. -/
def getObjectByName (ns : NameServer) (r : Role) (name : String) : Option Comp :=
  ns r name

/-- `bool loadController( const std::string& name )`. -/
def loadControllerNamed (ns : NameServer) (h : Hooks) (k : Kernel) (name : String) :
    Bool × Kernel :=
  match getObjectByName ns .Controller name with
  | some c => loadController h k c
  | none => (false, k)

/-- `bool unloadController( const std::string& name )`. -/
def unloadControllerNamed (ns : NameServer) (k : Kernel) (name : String) : Bool × Kernel :=
  match getObjectByName ns .Controller name with
  | some c => unloadController k c
  | none => (false, k)

/-- `bool selectController( const std::string& name )`. -/
def selectControllerNamed (ns : NameServer) (h : Hooks) (k : Kernel) (name : String) :
    Bool × Kernel :=
  match getObjectByName ns .Controller name with
  | some c => selectController h k c
  | none => (false, k)

/-- `bool isLoadedController( const std::string& name )`. -/
def isLoadedControllerNamed (ns : NameServer) (k : Kernel) (name : String) : Bool :=
  match getObjectByName ns .Controller name with
  | some c => isLoadedController k c
  | none => false

/-- `bool loadGenerator( const std::string& name )`. -/
def loadGeneratorNamed (ns : NameServer) (h : Hooks) (k : Kernel) (name : String) :
    Bool × Kernel :=
  match getObjectByName ns .Generator name with
  | some c => loadGenerator h k c
  | none => (false, k)

/-- `bool unloadGenerator( const std::string& name )`. -/
def unloadGeneratorNamed (ns : NameServer) (k : Kernel) (name : String) : Bool × Kernel :=
  match getObjectByName ns .Generator name with
  | some c => unloadGenerator k c
  | none => (false, k)

/-- `bool selectGenerator( const std::string& name )`. -/
def selectGeneratorNamed (ns : NameServer) (h : Hooks) (k : Kernel) (name : String) :
    Bool × Kernel :=
  match getObjectByName ns .Generator name with
  | some c => selectGenerator h k c
  | none => (false, k)

/-- `bool isLoadedGenerator( const std::string& name )`. -/
def isLoadedGeneratorNamed (ns : NameServer) (k : Kernel) (name : String) : Bool :=
  match getObjectByName ns .Generator name with
  | some c => isLoadedGenerator k c
  | none => false

/-- `bool loadEstimator( const std::string& name )`. -/
def loadEstimatorNamed (ns : NameServer) (h : Hooks) (k : Kernel) (name : String) :
    Bool × Kernel :=
  match getObjectByName ns .Estimator name with
  | some c => loadEstimator h k c
  | none => (false, k)

/-- `bool unloadEstimator( const std::string& name )`. -/
def unloadEstimatorNamed (ns : NameServer) (k : Kernel) (name : String) : Bool × Kernel :=
  match getObjectByName ns .Estimator name with
  | some c => unloadEstimator k c
  | none => (false, k)

/-- `bool selectEstimator( const std::string& name )`. -/
def selectEstimatorNamed (ns : NameServer) (h : Hooks) (k : Kernel) (name : String) :
    Bool × Kernel :=
  match getObjectByName ns .Estimator name with
  | some c => selectEstimator h k c
  | none => (false, k)

/-- `bool isLoadedEstimator( const std::string& name )`. -/
def isLoadedEstimatorNamed (ns : NameServer) (k : Kernel) (name : String) : Bool :=
  match getObjectByName ns .Estimator name with
  | some c => isLoadedEstimator k c
  | none => false

/-- `bool loadSensor( const std::string& name )`. -/
def loadSensorNamed (ns : NameServer) (h : Hooks) (k : Kernel) (name : String) :
    Bool × Kernel :=
  match getObjectByName ns .Sensor name with
  | some c => loadSensor h k c
  | none => (false, k)

/-- `bool unloadSensor( const std::string& name )`. -/
def unloadSensorNamed (ns : NameServer) (k : Kernel) (name : String) : Bool × Kernel :=
  match getObjectByName ns .Sensor name with
  | some c => unloadSensor k c
  | none => (false, k)

/-- `bool selectSensor( const std::string& name )`. -/
def selectSensorNamed (ns : NameServer) (h : Hooks) (k : Kernel) (name : String) :
    Bool × Kernel :=
  match getObjectByName ns .Sensor name with
  | some c => selectSensor h k c
  | none => (false, k)

/-- `bool isLoadedSensor( const std::string& name )`. -/
def isLoadedSensorNamed (ns : NameServer) (k : Kernel) (name : String) : Bool :=
  match getObjectByName ns .Sensor name with
  | some c => isLoadedSensor k c
  | none => false

/-- `bool loadEffector( const std::string& name )`. -/
def loadEffectorNamed (ns : NameServer) (h : Hooks) (k : Kernel) (name : String) :
    Bool × Kernel :=
  match getObjectByName ns .Effector name with
  | some c => loadEffector h k c
  | none => (false, k)

/-- `bool unloadEffector( const std::string& name )`. -/
def unloadEffectorNamed (ns : NameServer) (k : Kernel) (name : String) : Bool × Kernel :=
  match getObjectByName ns .Effector name with
  | some c => unloadEffector k c
  | none => (false, k)

/-- `bool selectEffector( const std::string& name )`. -/
def selectEffectorNamed (ns : NameServer) (h : Hooks) (k : Kernel) (name : String) :
    Bool × Kernel :=
  match getObjectByName ns .Effector name with
  | some c => selectEffector h k c
  | none => (false, k)

/-- `bool isLoadedEffector( const std::string& name )`. -/
def isLoadedEffectorNamed (ns : NameServer) (k : Kernel) (name : String) : Bool :=
  match getObjectByName ns .Effector name with
  | some c => isLoadedEffector k c
  | none => false

/-- `bool loadSupport( const std::string& name )`. -/
def loadSupportNamed (ns : NameServer) (h : Hooks) (k : Kernel) (name : String) :
    Bool × Kernel :=
  match getObjectByName ns .Support name with
  | some c => loadSupport h k c
  | none => (false, k)

/-- `bool unloadSupport( const std::string& name )`. -/
def unloadSupportNamed (ns : NameServer) (k : Kernel) (name : String) : Bool × Kernel :=
  match getObjectByName ns .Support name with
  | some c => unloadSupport k c
  | none => (false, k)

/-- `bool isLoadedSupport( const std::string& name )`. -/
def isLoadedSupportNamed (ns : NameServer) (k : Kernel) (name : String) : Bool :=
  match getObjectByName ns .Support name with
  | some c => isLoadedSupport k c
  | none => false

/-! ## Constructor (lines 115-164) -/

/-- The member initialisers of the constructor: the default components and the local
data objects get their addresses, every pointer refers to the kernel's own member. -/
def BaseKernel.members : Kernel :=
  { running := false
    dummy_controller := 0, dummy_generator := 1, dummy_estimator := 2
    dummy_effector := 3, dummy_sensor := 4
    controller := 0, generator := 1, estimator := 2, effector := 3, sensor := 4
    local_setpoints := ⟨.SetPoints, 0⟩, local_commands := ⟨.Commands, 0⟩
    local_inputs := ⟨.Inputs, 0⟩, local_models := ⟨.Models, 0⟩
    local_outputs := ⟨.Outputs, 0⟩
    setpoints := ⟨.SetPoints, 0⟩, commands := ⟨.Commands, 0⟩
    inputs := ⟨.Inputs, 0⟩, models := ⟨.Models, 0⟩, outputs := ⟨.Outputs, 0⟩
    controllers := [], generators := [], effectors := [], estimators := []
    sensors := [], supports := []
    externalInputs := false, externalOutputs := false, externalModels := false
    externalSetPoints := false, externalCommands := false
    bindings := [], calls := [] }

/-- The constructor `BaseKernel(...)`: loads the default components, then selects them
with `running` forced to true, then clears `running`. The kernel name set by the last
statement is not part of the record. -/
def BaseKernel (h : Hooks) : Kernel :=
  let k0 := BaseKernel.members
  let k1 := (loadController h k0 k0.controller).2
  let k2 := (loadGenerator h k1 k1.generator).2
  let k3 := (loadEstimator h k2 k2.estimator).2
  let k4 := (loadEffector h k3 k3.effector).2
  let k5 := (loadSensor h k4 k4.sensor).2
  let k6 := { k5 with running := true }
  let k7 := (selectController h k6 k6.controller).2
  let k8 := (selectGenerator h k7 k7.generator).2
  let k9 := (selectEstimator h k8 k8.estimator).2
  let k10 := (selectEffector h k9 k9.effector).2
  let k11 := (selectSensor h k10 k10.sensor).2
  { k11 with running := false }

/-! ## Lifecycle (lines 244-286) -/

/-- Modelled from the spec: `Extension::initialize()` of the execution strategy
(KernelInterfaces.hpp is not among the sources). Its result `ok` is the answer of the
extension; on success the kernel enters Running, on failure it is left Stopped. -/
def initializeExtension (ok : Bool) (k : Kernel) : Bool × Kernel :=
  (ok, { k with running := ok, calls := k.calls ++ [.extensionInitialize] })

/-- Modelled from the spec: `Extension::step()`, the step delegate of the execution
strategy; it runs the active components and leaves the kernel record alone. -/
def Extension.step (k : Kernel) : Kernel :=
  { k with calls := k.calls ++ [.extensionStep] }

/-- Modelled from the spec: `Extension::finalize()`, the shutdown of the execution
strategy; the kernel is Stopped afterwards. -/
def Extension.finalize (k : Kernel) : Kernel :=
  { k with running := false, calls := k.calls ++ [.extensionFinalize] }

/-- Modelled from the spec: `KernelBaseFunction::finalize()` as `step()` uses it
("select default components"): every role gets its default component back. -/
def KernelBaseFunction.finalize (k : Kernel) : Kernel :=
  { k with controller := k.dummy_controller, generator := k.dummy_generator,
           estimator := k.dummy_estimator, effector := k.dummy_effector,
           sensor := k.dummy_sensor, calls := k.calls ++ [.baseFinalize] }

/-- Modelled from the spec: `kernelStarted.fire()`, the started event. -/
def kernelStarted.fire (k : Kernel) : Kernel :=
  { k with calls := k.calls ++ [.kernelStarted] }

/-- Modelled from the spec: `kernelStopped.fire()`, the stopped event. -/
def kernelStopped.fire (k : Kernel) : Kernel :=
  { k with calls := k.calls ++ [.kernelStopped] }

/-- `virtual bool initialize()` (the name is reserved in Lean). Both `std::for_each` loops run from `supports.begin()`
to `supports.end()`; the results of `componentStartup` are dropped by `for_each`. -/
def initializeKernel (h : Hooks) (extOk : Bool) (k : Kernel) : Bool × Kernel :=
  let k1 := k.supports.foldl (fun acc s => (componentStartup h s acc).2) k
  let r := initializeExtension extOk k1
  if !r.1 then
    let k2 := r.2.supports.foldl (fun acc s => componentShutdown s acc) r.2
    (false, k2)
  else
    let k3 := kernelStarted.fire r.2
    (true, k3)

/-- `virtual void step()`. -/
def step (k : Kernel) : Kernel :=
  if isRunning k then Extension.step k
  else KernelBaseFunction.finalize k

/-- `virtual void finalize()`. -/
def finalize (k : Kernel) : Kernel :=
  let k1 := Extension.finalize k
  let k2 := k1.supports.foldl (fun acc s => componentShutdown s acc) k1
  kernelStopped.fire k2

/-! ## Data-object access (lines 955-1000) -/

/-- `CommandData* getCommands()`. -/
def getCommands (k : Kernel) : DataObject := k.commands

/-- `SetPointData* getSetpoints()`. -/
def getSetpoints (k : Kernel) : DataObject := k.setpoints

/-- `ModelData* getModels()`. -/
def getModels (k : Kernel) : DataObject := k.models

/-- `InputData* getInputs()`. -/
def getInputs (k : Kernel) : DataObject := k.inputs

/-- `OutputData* getOutputs()`. -/
def getOutputs (k : Kernel) : DataObject := k.outputs

/-- `void setCommands(CommandData* c)`. -/
def setCommands (k : Kernel) (c : DataObject) : Kernel :=
  { k with externalCommands := true, commands := c }

/-- `void setSetpoints(SetPointData* s)`. -/
def setSetpoints (k : Kernel) (s : DataObject) : Kernel :=
  { k with externalSetPoints := true, setpoints := s }

/-- `void setModels(ModelData* m)`. -/
def setModels (k : Kernel) (m : DataObject) : Kernel :=
  { k with externalModels := true, models := m }

/-- `void setInputs(InputData* i)`. -/
def setInputs (k : Kernel) (i : DataObject) : Kernel :=
  { k with externalInputs := true, inputs := i }

/-- `void setOutputs(OutputData* o)`. -/
def setOutputs (k : Kernel) (o : DataObject) : Kernel :=
  { k with externalOutputs := true, outputs := o }

/-! ## The operations by role -/

/-- The data-object reference the kernel returns from the getter of a channel. -/
def Kernel.dataObject (k : Kernel) : Channel → DataObject
  | .Commands => getCommands k
  | .SetPoints => getSetpoints k
  | .Models => getModels k
  | .Inputs => getInputs k
  | .Outputs => getOutputs k

/-- The external flag of a channel. -/
def Kernel.external (k : Kernel) : Channel → Bool
  | .Commands => k.externalCommands
  | .SetPoints => k.externalSetPoints
  | .Models => k.externalModels
  | .Inputs => k.externalInputs
  | .Outputs => k.externalOutputs

/-- The local data-object instance of a channel. -/
def Kernel.localObject (k : Kernel) : Channel → DataObject
  | .Commands => k.local_commands
  | .SetPoints => k.local_setpoints
  | .Models => k.local_models
  | .Inputs => k.local_inputs
  | .Outputs => k.local_outputs

/-- The setter of a channel. -/
def setData : Channel → Kernel → DataObject → Kernel
  | .Commands => setCommands
  | .SetPoints => setSetpoints
  | .Models => setModels
  | .Inputs => setInputs
  | .Outputs => setOutputs

/-- The default (no-op) component of a selectable role. -/
def Kernel.dummy (k : Kernel) : SelRole → Comp
  | .Controller => k.dummy_controller
  | .Generator => k.dummy_generator
  | .Estimator => k.dummy_estimator
  | .Sensor => k.dummy_sensor
  | .Effector => k.dummy_effector

/-- The registry (vector of loaded components) of a role. -/
def Kernel.registry (k : Kernel) : Role → List Comp
  | .Controller => k.controllers
  | .Generator => k.generators
  | .Estimator => k.estimators
  | .Sensor => k.sensors
  | .Effector => k.effectors
  | .Support => k.supports

/-- The active pointer of a selectable role. -/
def Kernel.active (k : Kernel) : SelRole → Comp
  | .Controller => k.controller
  | .Generator => k.generator
  | .Estimator => k.estimator
  | .Sensor => k.sensor
  | .Effector => k.effector

/-- The pointer-based `load` of a role. -/
def load (h : Hooks) : Role → Kernel → Comp → Bool × Kernel
  | .Controller => loadController h
  | .Generator => loadGenerator h
  | .Estimator => loadEstimator h
  | .Sensor => loadSensor h
  | .Effector => loadEffector h
  | .Support => loadSupport h

/-- The pointer-based `unload` of a role. -/
def unload : Role → Kernel → Comp → Bool × Kernel
  | .Controller => unloadController
  | .Generator => unloadGenerator
  | .Estimator => unloadEstimator
  | .Sensor => unloadSensor
  | .Effector => unloadEffector
  | .Support => unloadSupport

/-- The pointer-based `isLoaded` of a role. -/
def isLoaded : Role → Kernel → Comp → Bool
  | .Controller => isLoadedController
  | .Generator => isLoadedGenerator
  | .Estimator => isLoadedEstimator
  | .Sensor => isLoadedSensor
  | .Effector => isLoadedEffector
  | .Support => isLoadedSupport

/-- The pointer-based `select` of a selectable role. -/
def select (h : Hooks) : SelRole → Kernel → Comp → Bool × Kernel
  | .Controller => selectController h
  | .Generator => selectGenerator h
  | .Estimator => selectEstimator h
  | .Sensor => selectSensor h
  | .Effector => selectEffector h

/-- The name-based `load` of a role. -/
def loadNamed (ns : NameServer) (h : Hooks) : Role → Kernel → String → Bool × Kernel
  | .Controller => loadControllerNamed ns h
  | .Generator => loadGeneratorNamed ns h
  | .Estimator => loadEstimatorNamed ns h
  | .Sensor => loadSensorNamed ns h
  | .Effector => loadEffectorNamed ns h
  | .Support => loadSupportNamed ns h

/-- The name-based `unload` of a role. -/
def unloadNamed (ns : NameServer) : Role → Kernel → String → Bool × Kernel
  | .Controller => unloadControllerNamed ns
  | .Generator => unloadGeneratorNamed ns
  | .Estimator => unloadEstimatorNamed ns
  | .Sensor => unloadSensorNamed ns
  | .Effector => unloadEffectorNamed ns
  | .Support => unloadSupportNamed ns

/-- The name-based `isLoaded` of a role. -/
def isLoadedNamed (ns : NameServer) : Role → Kernel → String → Bool
  | .Controller => isLoadedControllerNamed ns
  | .Generator => isLoadedGeneratorNamed ns
  | .Estimator => isLoadedEstimatorNamed ns
  | .Sensor => isLoadedSensorNamed ns
  | .Effector => isLoadedEffectorNamed ns
  | .Support => isLoadedSupportNamed ns

/-- The name-based `select` of a selectable role. -/
def selectNamed (ns : NameServer) (h : Hooks) : SelRole → Kernel → String → Bool × Kernel
  | .Controller => selectControllerNamed ns h
  | .Generator => selectGeneratorNamed ns h
  | .Estimator => selectEstimatorNamed ns h
  | .Sensor => selectSensorNamed ns h
  | .Effector => selectEffectorNamed ns h

/-- The kernel with the active pointer of one role and the call trace replaced. -/
def Kernel.setActive (k : Kernel) (r : SelRole) (a : Comp) (tr : List Call) : Kernel :=
  match r with
  | .Controller => { k with controller := a, calls := tr }
  | .Generator => { k with generator := a, calls := tr }
  | .Estimator => { k with estimator := a, calls := tr }
  | .Sensor => { k with sensor := a, calls := tr }
  | .Effector => { k with effector := a, calls := tr }

/-- The kernel with the registry of one role replaced. -/
def Kernel.setRegistry (k : Kernel) (r : Role) (l : List Comp) : Kernel :=
  match r with
  | .Controller => { k with controllers := l }
  | .Generator => { k with generators := l }
  | .Estimator => { k with estimators := l }
  | .Sensor => { k with sensors := l }
  | .Effector => { k with effectors := l }
  | .Support => { k with supports := l }

/-- The kernel record without its two ghost fields. -/
def Kernel.frame (k : Kernel) : Kernel :=
  { k with bindings := [], calls := [] }

/-- What a `load` of component `c` in role `r` does to the kernel record apart from the
ghost fields, `e` being the answer of enableAspect: nothing when the kernel is running
or the aspect is refused, else `c` is appended to the registry of the role. -/
def Kernel.loadFrame (f : Kernel) (e : Bool) (r : Role) (c : Comp) : Kernel :=
  if f.running || !e then f else f.setRegistry r (f.registry r ++ [c])

/-- The kernel record, apart from the ghost fields, that the constructor produces: the
member initialisers with each default component registered when its aspect could be
enabled. -/
def BaseKernel.defaults (h : Hooks) : Kernel :=
  { ((((BaseKernel.members.loadFrame (h.enableAspect 0) .Controller 0).loadFrame
        (h.enableAspect 1) .Generator 1).loadFrame
        (h.enableAspect 2) .Estimator 2).loadFrame
        (h.enableAspect 3) .Effector 3).loadFrame (h.enableAspect 4) .Sensor 4
    with running := false }

/-- Per channel: the data-object reference, the local instance and the external flag. -/
def Kernel.dataView (k : Kernel) : List (DataObject × DataObject × Bool) :=
  [(k.commands, k.local_commands, k.externalCommands),
   (k.setpoints, k.local_setpoints, k.externalSetPoints),
   (k.models, k.local_models, k.externalModels),
   (k.inputs, k.local_inputs, k.externalInputs),
   (k.outputs, k.local_outputs, k.externalOutputs)]

/-- Per selectable role: the active pointer and the default component. -/
def Kernel.selView (k : Kernel) : List (Comp × Comp) :=
  [(k.controller, k.dummy_controller), (k.generator, k.dummy_generator),
   (k.estimator, k.dummy_estimator), (k.sensor, k.dummy_sensor),
   (k.effector, k.dummy_effector)]

/-- One call on the public interface of the kernel. The name-based operations are the
pointer-based ones behind a lookup, `isLoaded` and the getters return a value only. -/
inductive Op where
  | callLoad (h : Hooks) (r : Role) (c : Comp)
  | callUnload (r : Role) (c : Comp)
  | callSelect (h : Hooks) (r : SelRole) (c : Comp)
  | callSet (ch : Channel) (d : DataObject)
  | callInitialize (h : Hooks) (extOk : Bool)
  | callStep
  | callFinalize

/-- The operation is one of the five data-object setters. -/
def Op.isSet : Op → Bool
  | .callSet _ _ => true
  | _ => false

/-- The kernel after one call. -/
def Op.apply : Op → Kernel → Kernel
  | .callLoad h r c, k => (load h r k c).2
  | .callUnload r c, k => (unload r k c).2
  | .callSelect h r c, k => (select h r k c).2
  | .callSet ch d, k => setData ch k d
  | .callInitialize h extOk, k => (initializeKernel h extOk k).2
  | .callStep, k => step k
  | .callFinalize, k => finalize k

/-- The kernel after a sequence of calls. -/
def run (ops : List Op) (k : Kernel) : Kernel :=
  ops.foldl (fun acc op => op.apply acc) k

/-- A channel that is not external refers to the local instance. -/
def LocalFallback (k : Kernel) : Prop :=
  ∀ ch, k.external ch = false → k.dataObject ch = k.localObject ch

/-- The states a kernel can be in: construction followed by any sequence of calls. -/
def Reachable (k : Kernel) : Prop :=
  ∃ h ops, k = run ops (BaseKernel h)

/-- The components of a role that the kernel points at: the active and the default
component of the role (none for Support). -/
def Kernel.pointedAt (k : Kernel) : Role → List Comp
  | .Controller => [k.controller, k.dummy_controller]
  | .Generator => [k.generator, k.dummy_generator]
  | .Estimator => [k.estimator, k.dummy_estimator]
  | .Sensor => [k.sensor, k.dummy_sensor]
  | .Effector => [k.effector, k.dummy_effector]
  | .Support => []

/-- An unload call spares the role: its argument is neither the active nor the default
component of the role. Every other call does. -/
def Op.sparesActive (k : Kernel) : Op → Bool
  | .callUnload r c => decide (c ∉ k.pointedAt r)
  | _ => true

/-- A load call is fresh: its argument is not yet in the registry of the role. Every
other call is. -/
def Op.loadsFresh (k : Kernel) : Op → Bool
  | .callLoad _ r c => decide (c ∉ k.registry r)
  | _ => true

/-- Every call of the sequence, made on the state the calls before it lead to, passes
the check `g`. -/
def runGuarded (g : Kernel → Op → Bool) : List Op → Kernel → Bool
  | [], _ => true
  | op :: ops, k => g k op && runGuarded g ops (op.apply k)

/-- Every selectable role has its active component and its default component in its
registry. -/
def ActiveLoaded (k : Kernel) : Prop :=
  ∀ sr, k.active sr ∈ k.registry sr.toRole ∧ k.dummy sr ∈ k.registry sr.toRole

/-- No registry holds a component twice. -/
def RegistriesNodup (k : Kernel) : Prop :=
  ∀ ro, (k.registry ro).Nodup

/-! ## Vocabulary of the specification -/

/-- The calls made between the kernel value `k` and the later value `k2`. -/
def newCalls (k k2 : Kernel) : List Call :=
  k2.calls.drop k.calls.length

/-- The components on which `componentStartup` is called, in call order. -/
def startupOrder : List Call → List Comp
  | [] => []
  | .componentStartup c :: rest => c :: startupOrder rest
  | _ :: rest => startupOrder rest

/-- The components on which `componentShutdown` is called, in call order. -/
def shutdownOrder : List Call → List Comp
  | [] => []
  | .componentShutdown c :: rest => c :: shutdownOrder rest
  | _ :: rest => shutdownOrder rest

/-- The data objects bound by `writeTo`/`readFrom` calls, in call order. -/
def bindOrder : List Call → List DataObject
  | [] => []
  | .writeTo _ d :: rest => d :: bindOrder rest
  | .readFrom _ d :: rest => d :: bindOrder rest
  | _ :: rest => bindOrder rest

/-- The data objects of the `disconnect` calls, in call order. -/
def disconnectOrder : List Call → List DataObject
  | [] => []
  | .disconnect _ d :: rest => d :: disconnectOrder rest
  | _ :: rest => disconnectOrder rest


/-- The ports the pattern mandates for a role, in the words of the specification:
Sensor writes Inputs; Estimator reads Inputs and writes Models; Generator reads Models,
Inputs and Commands and writes SetPoints; Controller reads SetPoints, Models and Inputs
and writes Outputs; Effector reads Outputs; Support has no port. -/
def mandatedPorts (k : Kernel) (c : Comp) : Role → List Binding
  | .Sensor => [⟨c, k.inputs, .write⟩]
  | .Estimator => [⟨c, k.inputs, .read⟩, ⟨c, k.models, .write⟩]
  | .Generator => [⟨c, k.models, .read⟩, ⟨c, k.inputs, .read⟩, ⟨c, k.commands, .read⟩,
                   ⟨c, k.setpoints, .write⟩]
  | .Controller => [⟨c, k.setpoints, .read⟩, ⟨c, k.models, .read⟩, ⟨c, k.inputs, .read⟩,
                    ⟨c, k.outputs, .write⟩]
  | .Effector => [⟨c, k.outputs, .read⟩]
  | .Support => []

/-- Every `writeTo`/`readFrom` call in the trace is followed, later in the trace, by a
`disconnect` call of the same component on the same data object. -/
def bindsMatched : List Call → Bool
  | [] => true
  | .writeTo c d :: rest => decide (Call.disconnect c d ∈ rest) && bindsMatched rest
  | .readFrom c d :: rest => decide (Call.disconnect c d ∈ rest) && bindsMatched rest
  | _ :: rest => bindsMatched rest

/-- The port call that establishes a binding. -/
def Binding.toCall (b : Binding) : Call :=
  match b.dir with
  | .write => .writeTo b.comp b.obj
  | .read => .readFrom b.comp b.obj

/-- Successive disconnects of one component from a list of data objects. -/
def unbindAll (c : Comp) (ds : List DataObject) (bs : List Binding) : List Binding :=
  ds.foldl (fun acc d => removeBindings c d acc) bs

/-! ## Data-object values -/

/-- The value each data object holds. -/
abbrev Values := DataObject → Nat

/-- Modelled from the spec: a data object holds the most recent value written to it
(DataObjectInterfaces.hpp is not among the sources); writing `v` to `d` changes the
value of `d` and of no other data object. -/
def writeValue (d : DataObject) (v : Nat) (vals : Values) : Values :=
  fun x => if x = d then v else vals x

/-- What the two hooks that `select` calls write, per component: the data objects and
values a component writes in its `componentStartup` and in its `componentShutdown`. -/
structure HookWrites where
  startup : Comp → List (DataObject × Nat)
  shutdown : Comp → List (DataObject × Nat)

/-- The writes a call of the kernel gives rise to. -/
def HookWrites.ofCall (w : HookWrites) : Call → List (DataObject × Nat)
  | .componentStartup c => w.startup c
  | .componentShutdown c => w.shutdown c
  | _ => []

/-- The values after the writes of a sequence of calls, in call order. -/
def replayWrites (w : HookWrites) (calls : List Call) (vals : Values) : Values :=
  calls.foldl (fun acc call =>
    (w.ofCall call).foldl (fun a p => writeValue p.1 p.2 a) acc) vals

/-- The kernel together with the values of the data objects. -/
structure System where
  kernel : Kernel
  values : Values

/-- A component writes `v` into the data object `d`. -/
def System.write (s : System) (d : DataObject) (v : Nat) : System :=
  { s with values := writeValue d v s.values }

/-- The pointer-based `select` on the system: the kernel part is `select`; the values
change by what the components write in the hooks that this `select` calls, and by
nothing else, the body of `select*` holding no access to a data object. -/
def System.select (h : Hooks) (w : HookWrites) (r : SelRole) (s : System) (c : Comp) :
    Bool × System :=
  let res := ORO_ControlKernel.select h r s.kernel c
  (res.1, { kernel := res.2, values := replayWrites w (newCalls s.kernel res.2) s.values })

/-- Hooks that write nothing. -/
def HookWrites.silent : HookWrites := ⟨fun _ => [], fun _ => []⟩

/-! ## CORBA transport (rtt/transports/corba/CorbaTemplateProtocol.hpp) -/

/-- A `base::DataSourceBase` as `CorbaTemplateProtocol<T>` sees it: an assignable data
source of `T` (what `AssignableDataSource<T>::narrow` accepts) with its value, a data
source of `T` that is not assignable, or a data source of another type. -/
inductive DataSourceBase (T : Type) where
  | assignable (value : T)
  | readOnly (value : T)
  | foreign (typeId : Nat)
  deriving DecidableEq, Repr

/-- `AssignableDataSource<T>::narrow( target.get() )`: the value cell of the target when
it is an assignable data source of `T`, a null pointer otherwise. -/
def AssignableDataSource.narrow {T : Type} : DataSourceBase T → Option T
  | .assignable v => some v
  | _ => none

/-- `bool updateFromAny(const CORBA::Any* any, DataSourceBase::shared_ptr target)`, lines
97-111. `update` is `AnyConversion<PropertyType>::update`, the conversion of the wire
value, given as a parameter: `none` when it returns false. `ad->set( value )` stores the
value in the target. -/
def CorbaTemplateProtocol.updateFromAny {Any T : Type} (update : Any → Option T)
    (any : Any) (target : DataSourceBase T) : Bool × DataSourceBase T :=
  match AssignableDataSource.narrow target with
  | some _ =>
    match update any with
    | some value => (true, .assignable value)
    | none => (false, target)
  | none => (false, target)

/-- `DataSourceBase::shared_ptr createDataSource(const CORBA::Any* any)`, lines 86-92:
a fresh `ValueDataSource<T>` (holding the default value `dflt`), returned when
`updateFromAny` succeeds on it, a null pointer otherwise. -/
def CorbaTemplateProtocol.createDataSource {Any T : Type} (update : Any → Option T)
    (dflt : T) (any : Any) : Option (DataSourceBase T) :=
  let result : DataSourceBase T := .assignable dflt
  let r := CorbaTemplateProtocol.updateFromAny update any result
  if r.1 then some r.2 else none

/-- A conversion of wire values (numbers) that accepts the even ones. -/
def evenUpdate : Nat → Option Nat :=
  fun n => if n % 2 = 0 then some n else none

/-! ## States used in examples -/

/-- Hooks of components that accept everything. -/
def Hooks.accept : Hooks := ⟨fun _ => true, fun _ => true⟩

/-- Hooks of components that refuse everything. -/
def Hooks.refuse : Hooks := ⟨fun _ => false, fun _ => false⟩

/-- A stopped kernel with nothing loaded (the state of the member initialisers). -/
def emptyKernel : Kernel := BaseKernel.members

/-- A kernel whose task is running, with nothing loaded. -/
def runningKernel : Kernel := { BaseKernel.members with running := true }

/-- A stopped kernel in which Sensor 7 has been loaded once. -/
def sensorKernel : Kernel := (loadSensor Hooks.accept BaseKernel.members 7).2

/-- The kernel right after construction, all default components accepting. -/
def constructedKernel : Kernel := BaseKernel Hooks.accept

/-- The constructed kernel after a successful `loadSensor` of component 7. -/
def loadedKernel : Kernel := (loadSensor Hooks.accept constructedKernel 7).2

/-- The kernel with Sensor 7 loaded, its task started, after a successful
`selectSensor` of component 7: Sensor 7 is the active sensor. -/
def activeSensorKernel : Kernel :=
  (selectSensor Hooks.accept { loadedKernel with running := true } 7).2

/-- A running kernel in which Sensors 7 and 8 are loaded and Sensor 7 is active. -/
def twoSensorKernel : Kernel :=
  { (loadSensor Hooks.accept sensorKernel 8).2 with running := true, sensor := 7 }

/-- The constructed kernel after `loadSupport` of components 7 and 8, in this order. -/
def twoSupportKernel : Kernel :=
  (loadSupport Hooks.accept (loadSupport Hooks.accept constructedKernel 7).2 8).2

/-- The constructed kernel after two successful `loadSupport` calls of component 7. -/
def doubleSupportKernel : Kernel :=
  (loadSupport Hooks.accept (loadSupport Hooks.accept constructedKernel 7).2 7).2

/-- The kernel constructed with default components whose aspect cannot be enabled. -/
def refusedKernel : Kernel := BaseKernel Hooks.refuse

/-- The kernel in which Sensor 7 is active, after `finalize()`: stopped, Sensor 7 still
the active sensor. -/
def stoppedActiveKernel : Kernel := finalize activeSensorKernel

/-- The running kernel with Sensor 7 active, and the values of the data objects, all 0. -/
def activeSensorSystem : System := ⟨activeSensorKernel, fun _ => 0⟩

/-- The constructed kernel after unloading the default controller. -/
def unloadedDefaultKernel : Kernel :=
  run [.callUnload .Controller 0] (BaseKernel Hooks.accept)

/-- The constructed kernel after loading Sensor 7 twice. -/
def reloadedKernel : Kernel :=
  run [.callLoad Hooks.accept .Sensor 7, .callLoad Hooks.accept .Sensor 7]
    (BaseKernel Hooks.accept)

/-- A session that unloads only a component that is neither active nor a default. -/
def sparingSession : List Op :=
  [.callLoad Hooks.accept .Sensor 7, .callInitialize Hooks.accept true,
    .callSelect Hooks.accept .Sensor 7, .callFinalize, .callLoad Hooks.accept .Sensor 8,
    .callUnload .Sensor 8, .callStep]

/-- A session that never loads a component that is already loaded. -/
def freshSession : List Op :=
  [.callLoad Hooks.accept .Sensor 7, .callLoad Hooks.accept .Sensor 8,
    .callUnload .Sensor 7, .callLoad Hooks.accept .Sensor 7]

theorem unbindAll_eq_filter (c : Comp) (ds : List DataObject) (bs : List Binding) :
    unbindAll c ds bs = bs.filter (fun b => !(b.comp == c && decide (b.obj ∈ ds))) := by
  induction ds generalizing bs with
  | nil => simp [unbindAll]
  | cons d ds ih =>
    have hstep : unbindAll c (d :: ds) bs = unbindAll c ds (removeBindings c d bs) := rfl
    rw [hstep, ih, removeBindings, List.filter_filter]
    apply List.filter_congr
    intro b _
    by_cases h1 : b.comp = c <;> by_cases h2 : b.obj = d <;> simp [h1, h2]

theorem filter_addBinding (p : Binding → Bool) (b : Binding) (bs : List Binding)
    (hp : p b = false) : (addBinding b bs).filter p = bs.filter p := by
  unfold addBinding
  split
  · rfl
  · simp [List.filter_append, hp]

theorem mem_addBinding (x b : Binding) (bs : List Binding) :
    x ∈ addBinding b bs ↔ x ∈ bs ∨ x = b := by
  unfold addBinding
  split
  · constructor
    · exact Or.inl
    · rintro (hx | hx)
      · exact hx
      · subst hx; assumption
  · simp

/-- What a load whose aspect-enable fails leaves of the bindings: the bindings before,
without those of `c` on the data objects of the role. -/
theorem load_fail_bindings (h : Hooks) (r : Role) (k : Kernel) (c : Comp)
    (hr : isRunning k = false) (he : h.enableAspect c = false) :
    (load h r k c).2.bindings =
      k.bindings.filter (fun b => !(b.comp == c &&
        decide (b.obj ∈ (mandatedPorts k c r).map Binding.obj))) := by
  cases r
  · have e : (load h .Controller k c).2.bindings =
        unbindAll c [k.models, k.outputs, k.setpoints, k.inputs]
          (addBinding ⟨c, k.inputs, .read⟩ (addBinding ⟨c, k.models, .read⟩
            (addBinding ⟨c, k.setpoints, .read⟩
              (addBinding ⟨c, k.outputs, .write⟩ k.bindings)))) := by
      simp [load, loadController, hr, he, enableAspect, readFrom, writeTo, disconnect,
        unbindAll]
    rw [e, unbindAll_eq_filter]
    repeat rw [filter_addBinding _ _ _ (by simp)]
    apply List.filter_congr
    intro b _
    simp [mandatedPorts]
    rw [Bool.eq_iff_iff]
    simp
    tauto
  · have e : (load h .Generator k c).2.bindings =
        unbindAll c [k.models, k.commands, k.setpoints, k.inputs]
          (addBinding ⟨c, k.commands, .read⟩ (addBinding ⟨c, k.inputs, .read⟩
            (addBinding ⟨c, k.models, .read⟩
              (addBinding ⟨c, k.setpoints, .write⟩ k.bindings)))) := by
      simp [load, loadGenerator, hr, he, enableAspect, readFrom, writeTo, disconnect,
        unbindAll]
    rw [e, unbindAll_eq_filter]
    repeat rw [filter_addBinding _ _ _ (by simp)]
    apply List.filter_congr
    intro b _
    simp [mandatedPorts]
    rw [Bool.eq_iff_iff]
    simp
    tauto
  · have e : (load h .Estimator k c).2.bindings =
        unbindAll c [k.models, k.inputs]
          (addBinding ⟨c, k.inputs, .read⟩
            (addBinding ⟨c, k.models, .write⟩ k.bindings)) := by
      simp [load, loadEstimator, hr, he, enableAspect, readFrom, writeTo, disconnect,
        unbindAll]
    rw [e, unbindAll_eq_filter]
    repeat rw [filter_addBinding _ _ _ (by simp)]
    apply List.filter_congr
    intro b _
    simp [mandatedPorts]
    rw [Bool.eq_iff_iff]
    simp
    tauto
  · have e : (load h .Sensor k c).2.bindings =
        unbindAll c [k.inputs] (addBinding ⟨c, k.inputs, .write⟩ k.bindings) := by
      simp [load, loadSensor, hr, he, enableAspect, writeTo, disconnect, unbindAll]
    rw [e, unbindAll_eq_filter]
    repeat rw [filter_addBinding _ _ _ (by simp)]
    apply List.filter_congr
    intro b _
    simp [mandatedPorts]
  · have e : (load h .Effector k c).2.bindings =
        unbindAll c [k.outputs] (addBinding ⟨c, k.outputs, .read⟩ k.bindings) := by
      simp [load, loadEffector, hr, he, enableAspect, readFrom, disconnect, unbindAll]
    rw [e, unbindAll_eq_filter]
    repeat rw [filter_addBinding _ _ _ (by simp)]
    apply List.filter_congr
    intro b _
    simp [mandatedPorts]
  · simp [load, loadSupport, hr, he, enableAspect, mandatedPorts]

/-- A load whose aspect-enable fails returns false and keeps the registry. -/
theorem load_fail_registry (h : Hooks) (r : Role) (k : Kernel) (c : Comp)
    (hr : isRunning k = false) (he : h.enableAspect c = false) :
    (load h r k c).1 = false ∧ (load h r k c).2.registry r = k.registry r := by
  cases r <;>
    simp [load, loadController, loadGenerator, loadEstimator, loadSensor, loadEffector,
      loadSupport, hr, he, enableAspect, readFrom, writeTo, disconnect, Kernel.registry]

/-- While the kernel is running a load does nothing. -/
theorem load_of_running (h : Hooks) (r : Role) (k : Kernel) (c : Comp)
    (hr : isRunning k = true) : load h r k c = (false, k) := by
  cases r <;>
    simp [load, loadController, loadGenerator, loadEstimator, loadSensor, loadEffector,
      loadSupport, hr]

/-- A load on a stopped kernel reports what the aspect-enable hook answered. -/
theorem load_result_of_stopped (h : Hooks) (r : Role) (k : Kernel) (c : Comp)
    (hr : isRunning k = false) : (load h r k c).1 = h.enableAspect c := by
  cases r <;> cases he : h.enableAspect c <;>
    simp [load, loadController, loadGenerator, loadEstimator, loadSensor, loadEffector,
      loadSupport, hr, he, enableAspect, readFrom, writeTo, disconnect]

/-! ## Load -/

/-- C1: for every role and every component `c`, while the kernel is running `load(c)`
returns false, the registry of the role is unchanged and the kernel makes no call at
all on `c` (the call trace is unchanged, so no writeTo, readFrom, disconnect or
enableAspect); the whole kernel value is the one before the call. -/
theorem load_while_running (h : Hooks) (r : Role) (k : Kernel) (c : Comp)
    (hr : isRunning k = true) :
    (load h r k c).1 = false ∧ (load h r k c).2.registry r = k.registry r ∧
      (load h r k c).2.calls = k.calls ∧ (load h r k c).2 = k := by
  cases r <;>
    simp [load, loadController, loadGenerator, loadEstimator, loadSensor, loadEffector,
      loadSupport, hr]

theorem load_while_running_witness :
    isRunning runningKernel = true ∧
      ((load Hooks.accept .Controller runningKernel 7).1 = false ∧
        (load Hooks.accept .Controller runningKernel 7).2.registry .Controller =
          runningKernel.registry .Controller ∧
        (load Hooks.accept .Controller runningKernel 7).2.calls = runningKernel.calls ∧
        (load Hooks.accept .Controller runningKernel 7).2 = runningKernel) :=
  ⟨rfl, load_while_running Hooks.accept .Controller runningKernel 7 rfl⟩

/-- C2: for every role and every component `c`, if the kernel is not running and the
enableAspect hook of `c` returns true, `load(c)` returns true, the registry of the role
afterwards is the registry before with `c` appended as last element, and
`isLoaded(c)` is true. -/
theorem load_appends (h : Hooks) (r : Role) (k : Kernel) (c : Comp)
    (hr : isRunning k = false) (he : h.enableAspect c = true) :
    (load h r k c).1 = true ∧ (load h r k c).2.registry r = k.registry r ++ [c] ∧
      isLoaded r (load h r k c).2 c = true := by
  cases r <;>
    simp [load, loadController, loadGenerator, loadEstimator, loadSensor, loadEffector,
      loadSupport, hr, he, enableAspect, readFrom, writeTo, Kernel.registry, isLoaded,
      isLoadedController, isLoadedGenerator, isLoadedEstimator, isLoadedSensor,
      isLoadedEffector, isLoadedSupport]

theorem load_appends_witness :
    isRunning sensorKernel = false ∧ Hooks.accept.enableAspect 8 = true ∧
      ((load Hooks.accept .Sensor sensorKernel 8).1 = true ∧
        (load Hooks.accept .Sensor sensorKernel 8).2.registry .Sensor =
          sensorKernel.registry .Sensor ++ [8] ∧
        isLoaded .Sensor (load Hooks.accept .Sensor sensorKernel 8).2 8 = true) :=
  ⟨rfl, rfl, load_appends Hooks.accept .Sensor sensorKernel 8 rfl rfl⟩

/-- C3: for every role and every component `c`, if the kernel is not running and the
enableAspect hook of `c` returns false, `load(c)` returns false, the registry is
unchanged, every writeTo or readFrom call that this load made is followed by a
disconnect call of `c` on the same data object, and a `c` that had no port binding
before the call has none afterwards. -/
theorem load_enable_refused (h : Hooks) (r : Role) (k : Kernel) (c : Comp)
    (hr : isRunning k = false) (he : h.enableAspect c = false) :
    (load h r k c).1 = false ∧ (load h r k c).2.registry r = k.registry r ∧
      (∃ tr, (load h r k c).2.calls = k.calls ++ tr ∧ bindsMatched tr = true) ∧
      ((∀ b ∈ k.bindings, b.comp ≠ c) → ∀ b ∈ (load h r k c).2.bindings, b.comp ≠ c) := by
  refine ⟨(load_fail_registry h r k c hr he).1, (load_fail_registry h r k c hr he).2, ?_, ?_⟩
  · cases r <;>
      simp [load, loadController, loadGenerator, loadEstimator, loadSensor, loadEffector,
        loadSupport, hr, he, enableAspect, readFrom, writeTo, disconnect, bindsMatched]
  · intro hu b hb
    rw [load_fail_bindings h r k c hr he] at hb
    exact hu b (List.mem_filter.mp hb).1

theorem load_enable_refused_witness :
    isRunning emptyKernel = false ∧ Hooks.refuse.enableAspect 7 = false ∧
      ((load Hooks.refuse .Generator emptyKernel 7).1 = false ∧
        (load Hooks.refuse .Generator emptyKernel 7).2.registry .Generator =
          emptyKernel.registry .Generator ∧
        (∃ tr, (load Hooks.refuse .Generator emptyKernel 7).2.calls = emptyKernel.calls ++ tr ∧
          bindsMatched tr = true) ∧
        ((∀ b ∈ emptyKernel.bindings, b.comp ≠ 7) →
          ∀ b ∈ (load Hooks.refuse .Generator emptyKernel 7).2.bindings, b.comp ≠ 7)) :=
  ⟨rfl, rfl, load_enable_refused Hooks.refuse .Generator emptyKernel 7 rfl rfl⟩

/-- C4, the claim as stated fails: Sensor 7 is loaded (and bound as writer of the
inputs) in `loadedKernel`; a second `loadSensor(7)` whose enableAspect is refused
returns false and has disconnected 7 from the inputs, so the port bindings are not
those before the call. -/
theorem load_refused_unbinds_loaded :
    isRunning loadedKernel = false ∧ isLoaded .Sensor loadedKernel 7 = true ∧
      (⟨7, loadedKernel.inputs, .write⟩ : Binding) ∈ loadedKernel.bindings ∧
      (load Hooks.refuse .Sensor loadedKernel 7).1 = false ∧
      (⟨7, loadedKernel.inputs, .write⟩ : Binding) ∉
        (load Hooks.refuse .Sensor loadedKernel 7).2.bindings ∧
      (load Hooks.refuse .Sensor loadedKernel 7).2.bindings ≠ loadedKernel.bindings := by
  decide

/-- C4 as amended: a `load(c)` that returns false leaves the registry of the role as
it was, adds no port binding and removes none except bindings of `c` itself on the data
objects of the role; when `c` holds no port binding before the call, the port bindings
after the call are exactly those before. -/
theorem load_false_frame (h : Hooks) (r : Role) (k : Kernel) (c : Comp)
    (hf : (load h r k c).1 = false) :
    (load h r k c).2.registry r = k.registry r ∧
      (∀ b ∈ (load h r k c).2.bindings, b ∈ k.bindings) ∧
      (∀ b ∈ k.bindings, ¬(b.comp = c ∧ b.obj ∈ (mandatedPorts k c r).map Binding.obj) →
        b ∈ (load h r k c).2.bindings) ∧
      ((∀ b ∈ k.bindings, b.comp ≠ c) → (load h r k c).2.bindings = k.bindings) := by
  cases hr : isRunning k
  · have he : h.enableAspect c = false := by
      rw [← load_result_of_stopped h r k c hr]; exact hf
    have hb := load_fail_bindings h r k c hr he
    refine ⟨(load_fail_registry h r k c hr he).2, ?_, ?_, ?_⟩
    · intro b hmem
      rw [hb] at hmem
      exact (List.mem_filter.mp hmem).1
    · intro b hmem hn
      rw [hb]
      refine List.mem_filter.mpr ⟨hmem, ?_⟩
      by_cases h1 : b.comp = c
      · have h2 : b.obj ∉ (mandatedPorts k c r).map Binding.obj := fun hm => hn ⟨h1, hm⟩
        simp [h1, h2]
      · simp [h1]
    · intro hu
      rw [hb]
      apply List.filter_eq_self.mpr
      intro b hmem
      simp [hu b hmem]
  · rw [load_of_running h r k c hr]
    exact ⟨rfl, fun _ hb => hb, fun _ hb _ => hb, fun _ => rfl⟩

theorem load_false_frame_witness :
    (load Hooks.refuse .Sensor sensorKernel 9).1 = false ∧
      ((load Hooks.refuse .Sensor sensorKernel 9).2.registry .Sensor =
          sensorKernel.registry .Sensor ∧
        (∀ b ∈ (load Hooks.refuse .Sensor sensorKernel 9).2.bindings, b ∈ sensorKernel.bindings) ∧
        (∀ b ∈ sensorKernel.bindings,
          ¬(b.comp = 9 ∧ b.obj ∈ (mandatedPorts sensorKernel 9 .Sensor).map Binding.obj) →
            b ∈ (load Hooks.refuse .Sensor sensorKernel 9).2.bindings) ∧
        ((∀ b ∈ sensorKernel.bindings, b.comp ≠ 9) →
          (load Hooks.refuse .Sensor sensorKernel 9).2.bindings = sensorKernel.bindings)) :=
  ⟨rfl, load_false_frame Hooks.refuse .Sensor sensorKernel 9 rfl⟩

/-- C5: a successful load binds exactly the ports the role mandates and no others: the
bindings afterwards are those before together with the mandated ports of the role
(Sensor writes Inputs; Estimator reads Inputs, writes Models; Generator reads Models,
Inputs, Commands, writes SetPoints; Controller reads SetPoints, Models, Inputs, writes
Outputs; Effector reads Outputs; Support none), and the calls made are one
writeTo/readFrom per mandated port followed by enableAspect. -/
theorem load_binds_mandated (h : Hooks) (r : Role) (k : Kernel) (c : Comp)
    (hr : isRunning k = false) (he : h.enableAspect c = true) :
    (load h r k c).1 = true ∧
      (∀ b, b ∈ (load h r k c).2.bindings ↔ b ∈ k.bindings ∨ b ∈ mandatedPorts k c r) ∧
      ∃ tr, (load h r k c).2.calls = k.calls ++ tr ++ [Call.enableAspect c] ∧
        tr.Perm ((mandatedPorts k c r).map Binding.toCall) := by
  refine ⟨?_, ?_, ?_⟩
  · rw [load_result_of_stopped h r k c hr, he]
  · intro b
    cases r <;>
      simp [load, loadController, loadGenerator, loadEstimator, loadSensor, loadEffector,
        loadSupport, hr, he, enableAspect, readFrom, writeTo, mem_addBinding,
        mandatedPorts] <;>
      tauto
  · cases r
    · exact ⟨[.writeTo c k.outputs, .readFrom c k.setpoints, .readFrom c k.models,
        .readFrom c k.inputs],
        by simp [load, loadController, hr, he, enableAspect, readFrom, writeTo],
        (List.perm_append_singleton _ _).symm⟩
    · exact ⟨[.writeTo c k.setpoints, .readFrom c k.models, .readFrom c k.inputs,
        .readFrom c k.commands],
        by simp [load, loadGenerator, hr, he, enableAspect, readFrom, writeTo],
        (List.perm_append_singleton _ _).symm⟩
    · exact ⟨[.writeTo c k.models, .readFrom c k.inputs],
        by simp [load, loadEstimator, hr, he, enableAspect, readFrom, writeTo],
        (List.perm_append_singleton _ _).symm⟩
    · exact ⟨[.writeTo c k.inputs],
        by simp [load, loadSensor, hr, he, enableAspect, writeTo], List.Perm.refl _⟩
    · exact ⟨[.readFrom c k.outputs],
        by simp [load, loadEffector, hr, he, enableAspect, readFrom], List.Perm.refl _⟩
    · exact ⟨[], by simp [load, loadSupport, hr, he, enableAspect], List.Perm.refl _⟩

theorem load_binds_mandated_witness :
    isRunning emptyKernel = false ∧ Hooks.accept.enableAspect 7 = true ∧
      ((load Hooks.accept .Controller emptyKernel 7).1 = true ∧
        (∀ b, b ∈ (load Hooks.accept .Controller emptyKernel 7).2.bindings ↔
          b ∈ emptyKernel.bindings ∨ b ∈ mandatedPorts emptyKernel 7 .Controller) ∧
        ∃ tr, (load Hooks.accept .Controller emptyKernel 7).2.calls =
            emptyKernel.calls ++ tr ++ [Call.enableAspect 7] ∧
          tr.Perm ((mandatedPorts emptyKernel 7 .Controller).map Binding.toCall)) :=
  ⟨rfl, rfl, load_binds_mandated Hooks.accept .Controller emptyKernel 7 rfl rfl⟩

/-! ## Select -/

/-- A select touches the active pointer of its role and the call trace, nothing else. -/
theorem select_shape (h : Hooks) (r : SelRole) (k : Kernel) (c : Comp) :
    (select h r k c).2 =
      k.setActive r ((select h r k c).2.active r) ((select h r k c).2.calls) := by
  cases r
  all_goals
    simp only [select, selectController, selectGenerator, selectEstimator, selectSensor,
      selectEffector]
    split
    · rfl
    · cases hs : h.componentStartup c <;>
        simp only [componentStartup, componentShutdown, hs] <;> rfl


/-- C6: for every selectable role and every component `c`, if `c` is not in the
registry of the role or the kernel is not running, `select(c)` returns false, the
active pointer of the role is unchanged and no componentShutdown or componentStartup
call is made (the call trace, and the whole kernel value, are unchanged). -/
theorem select_rejected (h : Hooks) (r : SelRole) (k : Kernel) (c : Comp)
    (hc : c ∉ k.registry r.toRole ∨ isRunning k = false) :
    (select h r k c).1 = false ∧ (select h r k c).2.active r = k.active r ∧
      (select h r k c).2.calls = k.calls ∧ (select h r k c).2 = k := by
  have hsel : select h r k c = (false, k) := by
    cases r <;> rcases hc with hc | hc <;>
      simp_all [select, selectController, selectGenerator, selectEstimator, selectSensor,
        selectEffector, isLoadedController, isLoadedGenerator, isLoadedEstimator,
        isLoadedSensor, isLoadedEffector, Kernel.registry, SelRole.toRole]
  rw [hsel]
  exact ⟨rfl, rfl, rfl, rfl⟩

theorem select_rejected_witness :
    (9 ∉ twoSensorKernel.registry SelRole.Sensor.toRole ∨ isRunning twoSensorKernel = false) ∧
      ((select Hooks.accept .Sensor twoSensorKernel 9).1 = false ∧
        (select Hooks.accept .Sensor twoSensorKernel 9).2.active .Sensor =
          twoSensorKernel.active .Sensor ∧
        (select Hooks.accept .Sensor twoSensorKernel 9).2.calls = twoSensorKernel.calls ∧
        (select Hooks.accept .Sensor twoSensorKernel 9).2 = twoSensorKernel) :=
  ⟨Or.inl (by decide),
    select_rejected Hooks.accept .Sensor twoSensorKernel 9 (Or.inl (by decide))⟩

/-- C7, the claim as stated fails: in `activeSensorKernel` the kernel is running and
Sensor 7 is loaded and active; `selectSensor(7)` with the componentStartup of 7
returning false returns true. -/
theorem select_active_refused_returns_true :
    isRunning activeSensorKernel = true ∧ isLoaded .Sensor activeSensorKernel 7 = true ∧
      activeSensorKernel.active .Sensor = 7 ∧ Hooks.refuse.componentStartup 7 = false ∧
      (select Hooks.refuse .Sensor activeSensorKernel 7).1 = true := by
  decide

/-- C7 as amended: for every selectable role and every loaded component `c`, with the
kernel running, if the componentStartup of `c` returns false then the active pointer of
the role after `select(c)` is the component that was active before the call, and
`select(c)` returns false exactly when `c` is not that component. -/
theorem select_startup_refused (h : Hooks) (r : SelRole) (k : Kernel) (c : Comp)
    (hl : c ∈ k.registry r.toRole) (hr : isRunning k = true)
    (hs : h.componentStartup c = false) :
    (select h r k c).2.active r = k.active r ∧
      ((select h r k c).1 = false ↔ c ≠ k.active r) := by
  cases r <;>
    simp_all [select, selectController, selectGenerator, selectEstimator, selectSensor,
      selectEffector, isLoadedController, isLoadedGenerator, isLoadedEstimator,
      isLoadedSensor, isLoadedEffector, Kernel.registry, SelRole.toRole, Kernel.active,
      componentStartup, componentShutdown] <;>
    exact ⟨fun hne heq => hne heq.symm, fun hne heq => hne heq.symm⟩

theorem select_startup_refused_witness :
    8 ∈ twoSensorKernel.registry SelRole.Sensor.toRole ∧ isRunning twoSensorKernel = true ∧
      Hooks.refuse.componentStartup 8 = false ∧
      ((select Hooks.refuse .Sensor twoSensorKernel 8).2.active .Sensor =
          twoSensorKernel.active .Sensor ∧
        ((select Hooks.refuse .Sensor twoSensorKernel 8).1 = false ↔
          8 ≠ twoSensorKernel.active .Sensor)) :=
  ⟨by decide, rfl, rfl,
    select_startup_refused Hooks.refuse .Sensor twoSensorKernel 8 (by decide) rfl rfl⟩

/-- C8: for every selectable role and every loaded component `c`, with the kernel
running: if the componentStartup of `c` returns true, `select(c)` returns true and `c`
is the active component of the role afterwards; and whatever componentStartup returns,
`select(c)` returns true exactly when the active pointer after the call is `c`. -/
theorem select_result (h : Hooks) (r : SelRole) (k : Kernel) (c : Comp)
    (hl : c ∈ k.registry r.toRole) (hr : isRunning k = true) :
    (h.componentStartup c = true →
        (select h r k c).1 = true ∧ (select h r k c).2.active r = c) ∧
      ((select h r k c).1 = true ↔ (select h r k c).2.active r = c) := by
  cases r <;> cases hs : h.componentStartup c <;>
    simp_all [select, selectController, selectGenerator, selectEstimator, selectSensor,
      selectEffector, isLoadedController, isLoadedGenerator, isLoadedEstimator,
      isLoadedSensor, isLoadedEffector, Kernel.registry, SelRole.toRole, Kernel.active,
      componentStartup, componentShutdown]

theorem select_result_witness :
    8 ∈ twoSensorKernel.registry SelRole.Sensor.toRole ∧ isRunning twoSensorKernel = true ∧
      ((Hooks.accept.componentStartup 8 = true →
          (select Hooks.accept .Sensor twoSensorKernel 8).1 = true ∧
            (select Hooks.accept .Sensor twoSensorKernel 8).2.active .Sensor = 8) ∧
        ((select Hooks.accept .Sensor twoSensorKernel 8).1 = true ↔
          (select Hooks.accept .Sensor twoSensorKernel 8).2.active .Sensor = 8)) :=
  ⟨by decide, rfl, select_result Hooks.accept .Sensor twoSensorKernel 8 (by decide) rfl⟩

/-- C9: `select` on a role changes nothing but the active pointer of that role: for
every kernel state and component `c`, after `select(c)` the six registries, the five
data-object references, the five external flags, all port bindings and the active
pointers of the other four roles are those before the call. -/
theorem select_frame (h : Hooks) (r : SelRole) (k : Kernel) (c : Comp) :
    (∀ ro, (select h r k c).2.registry ro = k.registry ro) ∧
      (∀ ch, (select h r k c).2.dataObject ch = k.dataObject ch) ∧
      (∀ ch, (select h r k c).2.external ch = k.external ch) ∧
      (select h r k c).2.bindings = k.bindings ∧
      (∀ ra, ra ≠ r → (select h r k c).2.active ra = k.active ra) := by
  rw [select_shape h r k c]
  refine ⟨?_, ?_, ?_, ?_, ?_⟩
  · intro ro
    cases r <;> cases ro <;> rfl
  · intro ch
    cases r <;> cases ch <;> rfl
  · intro ch
    cases r <;> cases ch <;> rfl
  · cases r <;> rfl
  · intro ra hne
    cases r <;> cases ra <;> first | rfl | exact absurd rfl hne

/-! ## Unload -/

/-- C10: for every role and every component `c`, `unload(c)` returns false exactly
when the kernel is running or `c` is not in the registry of the role; in that case the
registry and all port bindings are unchanged and no disableAspect or disconnect call is
made (the call trace is unchanged). -/
theorem unload_rejected_iff (r : Role) (k : Kernel) (c : Comp) :
    ((unload r k c).1 = false ↔ (isRunning k = true ∨ c ∉ k.registry r)) ∧
      ((unload r k c).1 = false →
        (unload r k c).2.registry r = k.registry r ∧
          (unload r k c).2.bindings = k.bindings ∧ (unload r k c).2.calls = k.calls) := by
  by_cases hm : c ∈ k.registry r <;> cases r <;> cases hr : isRunning k <;>
    simp_all [unload, unloadController, unloadGenerator, unloadEstimator, unloadSensor,
      unloadEffector, unloadSupport, Kernel.registry]

/-! ## Lifecycle -/

theorem foldl_componentShutdown (l : List Comp) (k : Kernel) :
    l.foldl (fun acc s => componentShutdown s acc) k =
      { k with calls := k.calls ++ l.map Call.componentShutdown } := by
  induction l generalizing k with
  | nil => simp
  | cons s l ih =>
    rw [List.foldl_cons, ih]
    simp [componentShutdown, List.append_assoc]

theorem foldl_componentStartup (h : Hooks) (l : List Comp) (k : Kernel) :
    l.foldl (fun acc s => (componentStartup h s acc).2) k =
      { k with calls := k.calls ++ l.map Call.componentStartup } := by
  induction l generalizing k with
  | nil => simp
  | cons s l ih =>
    rw [List.foldl_cons, ih]
    simp [componentStartup, List.append_assoc]

theorem initializeKernel_refused (h : Hooks) (k : Kernel) :
    initializeKernel h false k =
      (false, { k with running := false,
                       calls := k.calls ++ (k.supports.map Call.componentStartup ++
                         Call.extensionInitialize :: k.supports.map Call.componentShutdown) }) := by
  simp [initializeKernel, initializeExtension, foldl_componentStartup, foldl_componentShutdown,
    List.append_assoc]

theorem initializeKernel_accepted (h : Hooks) (k : Kernel) :
    initializeKernel h true k =
      (true, { k with running := true,
                      calls := k.calls ++ (k.supports.map Call.componentStartup ++
                        [Call.extensionInitialize, Call.kernelStarted]) }) := by
  simp [initializeKernel, initializeExtension, foldl_componentStartup, kernelStarted.fire,
    List.append_assoc]

theorem finalize_eq (k : Kernel) :
    finalize k =
      { k with running := false,
               calls := k.calls ++ (Call.extensionFinalize ::
                 (k.supports.map Call.componentShutdown ++ [Call.kernelStopped])) } := by
  simp [finalize, Extension.finalize, foldl_componentShutdown, kernelStopped.fire,
    List.append_assoc]

theorem newCalls_of_append (k k2 : Kernel) (tr : List Call) (e : k2.calls = k.calls ++ tr) :
    newCalls k k2 = tr := by
  simp [newCalls, e]

theorem shutdownOrder_append (a b : List Call) :
    shutdownOrder (a ++ b) = shutdownOrder a ++ shutdownOrder b := by
  induction a with
  | nil => rfl
  | cons x a ih => cases x <;> simp [shutdownOrder, ih]

theorem startupOrder_append (a b : List Call) :
    startupOrder (a ++ b) = startupOrder a ++ startupOrder b := by
  induction a with
  | nil => rfl
  | cons x a ih => cases x <;> simp [startupOrder, ih]

theorem shutdownOrder_map_shutdown (l : List Comp) :
    shutdownOrder (l.map Call.componentShutdown) = l := by
  induction l with
  | nil => rfl
  | cons x l ih => simp [shutdownOrder, ih]

theorem shutdownOrder_map_startup (l : List Comp) :
    shutdownOrder (l.map Call.componentStartup) = [] := by
  induction l with
  | nil => rfl
  | cons x l ih => simp [shutdownOrder, ih]

theorem startupOrder_map_startup (l : List Comp) :
    startupOrder (l.map Call.componentStartup) = l := by
  induction l with
  | nil => rfl
  | cons x l ih => simp [startupOrder, ih]

theorem startupOrder_map_shutdown (l : List Comp) :
    startupOrder (l.map Call.componentShutdown) = [] := by
  induction l with
  | nil => rfl
  | cons x l ih => simp [startupOrder, ih]

theorem newCalls_initialize_refused (h : Hooks) (k : Kernel) :
    newCalls k (initializeKernel h false k).2 =
      k.supports.map Call.componentStartup ++
        Call.extensionInitialize :: k.supports.map Call.componentShutdown :=
  newCalls_of_append _ _ _ (by rw [initializeKernel_refused])

theorem newCalls_initialize_accepted (h : Hooks) (k : Kernel) :
    newCalls k (initializeKernel h true k).2 =
      k.supports.map Call.componentStartup ++
        [Call.extensionInitialize, Call.kernelStarted] :=
  newCalls_of_append _ _ _ (by rw [initializeKernel_accepted])

theorem newCalls_finalize (k : Kernel) :
    newCalls k (finalize k) =
      Call.extensionFinalize :: (k.supports.map Call.componentShutdown ++ [Call.kernelStopped]) :=
  newCalls_of_append _ _ _ (by rw [finalize_eq])

/-- C16, the claim as stated fails: in `doubleSupportKernel` Support 7 is registered
twice; during an `initialize()` whose extension refuses, 7 receives componentStartup and
then two componentShutdown calls, not exactly one. -/
theorem initialize_rollback_double_shutdown :
    doubleSupportKernel.supports = [7, 7] ∧
      7 ∈ startupOrder
        (newCalls doubleSupportKernel (initializeKernel Hooks.accept false doubleSupportKernel).2) ∧
      (shutdownOrder
        (newCalls doubleSupportKernel
          (initializeKernel Hooks.accept false doubleSupportKernel).2)).count 7 = 2 := by
  decide

/-- C16 as amended: for every kernel state, if the initialize of the execution strategy
returns false, `initialize()` returns false, does not fire the started event, and every
Support component receives as many componentShutdown calls as it received
componentStartup calls during this `initialize()`, one per entry it has in the Support
registry (hence exactly one for a component registered once). -/
theorem initialize_extension_refused (h : Hooks) (k : Kernel) :
    (initializeKernel h false k).1 = false ∧
      Call.kernelStarted ∉ newCalls k (initializeKernel h false k).2 ∧
      (∀ s, (shutdownOrder (newCalls k (initializeKernel h false k).2)).count s =
        (startupOrder (newCalls k (initializeKernel h false k).2)).count s) ∧
      (∀ s, (shutdownOrder (newCalls k (initializeKernel h false k).2)).count s =
        k.supports.count s) := by
  rw [newCalls_initialize_refused]
  refine ⟨by rw [initializeKernel_refused], by simp, ?_, ?_⟩ <;>
    simp [shutdownOrder_append, startupOrder_append, shutdownOrder, startupOrder,
      shutdownOrder_map_shutdown, shutdownOrder_map_startup, startupOrder_map_startup,
      startupOrder_map_shutdown]

/-- C17: for every kernel state, `initialize()` calls componentStartup on every Support
component in registration order, all before the initialize of the execution strategy;
if that returns true, `initialize()` returns true, fires the started event exactly once
(as its last call) and calls no componentShutdown. -/
theorem initialize_startup_then_extension (h : Hooks) (k : Kernel) :
    (∀ extOk, ∃ rest, newCalls k (initializeKernel h extOk k).2 =
        k.supports.map Call.componentStartup ++ Call.extensionInitialize :: rest) ∧
      (initializeKernel h true k).1 = true ∧
      newCalls k (initializeKernel h true k).2 =
        k.supports.map Call.componentStartup ++
          [Call.extensionInitialize, Call.kernelStarted] ∧
      (newCalls k (initializeKernel h true k).2).count Call.kernelStarted = 1 ∧
      shutdownOrder (newCalls k (initializeKernel h true k).2) = [] := by
  refine ⟨?_, by rw [initializeKernel_accepted], newCalls_initialize_accepted h k, ?_, ?_⟩
  · intro extOk
    cases extOk
    · exact ⟨_, newCalls_initialize_refused h k⟩
    · exact ⟨_, newCalls_initialize_accepted h k⟩
  · rw [newCalls_initialize_accepted]
    simp [List.count_append, List.count_eq_zero]
  · rw [newCalls_initialize_accepted]
    simp [shutdownOrder_append, shutdownOrder, shutdownOrder_map_startup]

/-- C18: for every kernel state, `finalize()` performs, in this order, the finalize of
the execution strategy exactly once, then one componentShutdown call per Support
registry entry, then the stopped event exactly once; it changes no registry and no
data-object reference. -/
theorem finalize_sequence (k : Kernel) :
    newCalls k (finalize k) =
        Call.extensionFinalize ::
          (k.supports.map Call.componentShutdown ++ [Call.kernelStopped]) ∧
      (∀ ro, (finalize k).registry ro = k.registry ro) ∧
      (∀ ch, (finalize k).dataObject ch = k.dataObject ch) := by
  refine ⟨newCalls_finalize k, ?_, ?_⟩
  · intro ro
    rw [finalize_eq]
    cases ro <;> rfl
  · intro ch
    rw [finalize_eq]
    cases ch <;> rfl

/-- C19, the claim as stated fails: with the Support registry [7, 8] both `finalize()`
and the rollback of a refused `initialize()` call componentShutdown on 7 first and on 8
second, which is not the reverse registration order. -/
theorem shutdown_not_reversed :
    twoSupportKernel.supports = [7, 8] ∧
      shutdownOrder (newCalls twoSupportKernel (finalize twoSupportKernel)) = [7, 8] ∧
      shutdownOrder
        (newCalls twoSupportKernel (initializeKernel Hooks.accept false twoSupportKernel).2) =
          [7, 8] ∧
      shutdownOrder (newCalls twoSupportKernel (finalize twoSupportKernel)) ≠
        twoSupportKernel.supports.reverse ∧
      shutdownOrder
        (newCalls twoSupportKernel (initializeKernel Hooks.accept false twoSupportKernel).2) ≠
          twoSupportKernel.supports.reverse := by
  decide

/-- C19 as amended: Support components are shut down in registration order: for every
Support registry [s1, ..., sn], both `finalize()` and the rollback of a refused
`initialize()` call componentShutdown in the order s1, ..., sn. -/
theorem shutdown_in_registration_order (h : Hooks) (k : Kernel) :
    shutdownOrder (newCalls k (finalize k)) = k.supports ∧
      shutdownOrder (newCalls k (initializeKernel h false k).2) = k.supports := by
  rw [newCalls_finalize, newCalls_initialize_refused]
  constructor <;>
    simp [shutdownOrder_append, shutdownOrder, shutdownOrder_map_shutdown,
      shutdownOrder_map_startup]

/-! ## Unload of a loaded component -/

/-- What a successful unload leaves of the bindings: the bindings before, without those
of `c` on the data objects of the role. -/
theorem unload_bindings (r : Role) (k : Kernel) (c : Comp)
    (hl : c ∈ k.registry r) (hr : isRunning k = false) :
    (unload r k c).2.bindings =
      k.bindings.filter (fun b => !(b.comp == c &&
        decide (b.obj ∈ (mandatedPorts k c r).map Binding.obj))) := by
  cases r
  · have e : (unload .Controller k c).2.bindings =
        unbindAll c [k.models, k.outputs, k.setpoints, k.inputs] k.bindings := by
      simp_all [unload, unloadController, disableAspect, disconnect, unbindAll,
        Kernel.registry]
    rw [e, unbindAll_eq_filter]
    apply List.filter_congr
    intro b _
    simp [mandatedPorts]
    rw [Bool.eq_iff_iff]
    simp
    tauto
  · have e : (unload .Generator k c).2.bindings =
        unbindAll c [k.models, k.setpoints, k.commands, k.inputs] k.bindings := by
      simp_all [unload, unloadGenerator, disableAspect, disconnect, unbindAll,
        Kernel.registry]
    rw [e, unbindAll_eq_filter]
    apply List.filter_congr
    intro b _
    simp [mandatedPorts]
    rw [Bool.eq_iff_iff]
    simp
    tauto
  · have e : (unload .Estimator k c).2.bindings =
        unbindAll c [k.models, k.inputs] k.bindings := by
      simp_all [unload, unloadEstimator, disableAspect, disconnect, unbindAll,
        Kernel.registry]
    rw [e, unbindAll_eq_filter]
    apply List.filter_congr
    intro b _
    simp [mandatedPorts]
    rw [Bool.eq_iff_iff]
    simp
    tauto
  · have e : (unload .Sensor k c).2.bindings = unbindAll c [k.inputs] k.bindings := by
      simp_all [unload, unloadSensor, disableAspect, disconnect, unbindAll, Kernel.registry]
    rw [e, unbindAll_eq_filter]
    apply List.filter_congr
    intro b _
    simp [mandatedPorts]
  · have e : (unload .Effector k c).2.bindings = unbindAll c [k.outputs] k.bindings := by
      simp_all [unload, unloadEffector, disableAspect, disconnect, unbindAll,
        Kernel.registry]
    rw [e, unbindAll_eq_filter]
    apply List.filter_congr
    intro b _
    simp [mandatedPorts]
  · simp_all [unload, unloadSupport, disableAspect, mandatedPorts, Kernel.registry]

/-- A successful unload returns true and erases one entry of the registry. -/
theorem unload_registry (r : Role) (k : Kernel) (c : Comp)
    (hl : c ∈ k.registry r) (hr : isRunning k = false) :
    (unload r k c).1 = true ∧ (unload r k c).2.registry r = (k.registry r).erase c := by
  cases r <;>
    simp_all [unload, unloadController, unloadGenerator, unloadEstimator, unloadSensor,
      unloadEffector, unloadSupport, disableAspect, disconnect, Kernel.registry]

/-- The calls of a successful unload: disableAspect, then the disconnects. -/
theorem unload_calls (r : Role) (k : Kernel) (c : Comp)
    (hl : c ∈ k.registry r) (hr : isRunning k = false) :
    ∃ ds : List DataObject, (unload r k c).2.calls =
        k.calls ++ Call.disableAspect c :: ds.map (Call.disconnect c) ∧
      ds.Perm ((mandatedPorts k c r).map Binding.obj) := by
  cases r
  · refine ⟨[k.models, k.outputs, k.setpoints, k.inputs], ?_, ?_⟩
    · simp_all [unload, unloadController, disableAspect, disconnect, Kernel.registry]
    · exact (((List.Perm.swap k.setpoints k.outputs [k.inputs]).cons k.models).trans
        (List.Perm.swap k.setpoints k.models [k.outputs, k.inputs])).trans
        (((List.Perm.swap k.inputs k.outputs []).cons k.models).cons k.setpoints)
  · refine ⟨[k.models, k.setpoints, k.commands, k.inputs], ?_, ?_⟩
    · simp_all [unload, unloadGenerator, disableAspect, disconnect, Kernel.registry]
    · refine List.Perm.cons k.models ?_
      exact (((List.Perm.swap k.commands k.setpoints [k.inputs]).trans
        ((List.Perm.swap k.inputs k.setpoints []).cons k.commands)).trans
        (List.Perm.swap k.inputs k.commands [k.setpoints]))
  · refine ⟨[k.models, k.inputs], ?_, ?_⟩
    · simp_all [unload, unloadEstimator, disableAspect, disconnect, Kernel.registry]
    · exact List.Perm.swap k.inputs k.models []
  · refine ⟨[k.inputs], ?_, List.Perm.refl _⟩
    simp_all [unload, unloadSensor, disableAspect, disconnect, Kernel.registry]
  · refine ⟨[k.outputs], ?_, List.Perm.refl _⟩
    simp_all [unload, unloadEffector, disableAspect, disconnect, Kernel.registry]
  · refine ⟨[], ?_, List.Perm.refl _⟩
    simp_all [unload, unloadSupport, disableAspect, Kernel.registry]

theorem isLoaded_eq_decide (r : Role) (k : Kernel) (c : Comp) :
    isLoaded r k c = decide (c ∈ k.registry r) := by
  cases r <;> rfl

/-- What a successful unload does in the embedding, where `erase( c )` is read as
`erase( itl )`: it returns true; its calls are disableAspect on `c` once, first, then
one disconnect of `c` per data object the role mandates; `c` holds no binding on those
data objects afterwards; one entry of `c` is gone from the registry, so that
`isLoaded(c)` is false exactly when `c` was registered once. -/
theorem unload_loaded (r : Role) (k : Kernel) (c : Comp)
    (hl : c ∈ k.registry r) (hr : isRunning k = false) :
    (unload r k c).1 = true ∧
      (∃ ds : List DataObject,
        newCalls k (unload r k c).2 = Call.disableAspect c :: ds.map (Call.disconnect c) ∧
          ds.Perm ((mandatedPorts k c r).map Binding.obj)) ∧
      (unload r k c).2.bindings =
        k.bindings.filter (fun b => !(b.comp == c &&
          decide (b.obj ∈ (mandatedPorts k c r).map Binding.obj))) ∧
      (unload r k c).2.registry r = (k.registry r).erase c ∧
      (isLoaded r (unload r k c).2 c = false ↔ (k.registry r).count c = 1) := by
  obtain ⟨ds, hcalls, hperm⟩ := unload_calls r k c hl hr
  refine ⟨(unload_registry r k c hl hr).1, ⟨ds, newCalls_of_append _ _ _ hcalls, hperm⟩,
    unload_bindings r k c hl hr, (unload_registry r k c hl hr).2, ?_⟩
  rw [isLoaded_eq_decide, (unload_registry r k c hl hr).2, decide_eq_false_iff_not,
    ← List.count_eq_zero, List.count_erase_self]
  have hpos : 0 < (k.registry r).count c := List.count_pos_iff.mpr hl
  omega

theorem unload_loaded_witness :
    7 ∈ sensorKernel.registry .Sensor ∧ isRunning sensorKernel = false ∧
      ((unload .Sensor sensorKernel 7).1 = true ∧
        (∃ ds : List DataObject,
          newCalls sensorKernel (unload .Sensor sensorKernel 7).2 =
              Call.disableAspect 7 :: ds.map (Call.disconnect 7) ∧
            ds.Perm ((mandatedPorts sensorKernel 7 .Sensor).map Binding.obj)) ∧
        (unload .Sensor sensorKernel 7).2.bindings =
          sensorKernel.bindings.filter (fun b => !(b.comp == 7 &&
            decide (b.obj ∈ (mandatedPorts sensorKernel 7 .Sensor).map Binding.obj))) ∧
        (unload .Sensor sensorKernel 7).2.registry .Sensor =
          (sensorKernel.registry .Sensor).erase 7 ∧
        (isLoaded .Sensor (unload .Sensor sensorKernel 7).2 7 = false ↔
          (sensorKernel.registry .Sensor).count 7 = 1)) :=
  ⟨by decide, rfl, unload_loaded .Sensor sensorKernel 7 (by decide) rfl⟩

/-- C12: for every role and every component `c`, `isLoaded(c)` returns true exactly
when `c` occurs in the registry of the role. The body of each `isLoaded*` is the single
expression `std::find(...) != end()`: it assigns no member and calls no component, which
is why its embedding returns the boolean only. -/
theorem isLoaded_iff_mem (r : Role) (k : Kernel) (c : Comp) :
    isLoaded r k c = true ↔ c ∈ k.registry r := by
  cases r <;>
    simp [isLoaded, isLoadedController, isLoadedGenerator, isLoadedEstimator, isLoadedSensor,
      isLoadedEffector, isLoadedSupport, Kernel.registry]

/-! ## Order of the rollback in load -/

/-- C20, the claim as stated fails: on the constructed kernel a `loadController(7)` and
a `loadEstimator(7)` whose enableAspect is refused do not disconnect in the reverse of
the order in which they bound; the Controller was bound last to the inputs and is
disconnected first from the models. -/
theorem rollback_not_reversed :
    bindOrder (newCalls constructedKernel
        (load Hooks.refuse .Controller constructedKernel 7).2) =
        [constructedKernel.outputs, constructedKernel.setpoints, constructedKernel.models,
          constructedKernel.inputs] ∧
      disconnectOrder (newCalls constructedKernel
        (load Hooks.refuse .Controller constructedKernel 7).2) =
        [constructedKernel.models, constructedKernel.outputs, constructedKernel.setpoints,
          constructedKernel.inputs] ∧
      disconnectOrder (newCalls constructedKernel
          (load Hooks.refuse .Controller constructedKernel 7).2) ≠
        (bindOrder (newCalls constructedKernel
          (load Hooks.refuse .Controller constructedKernel 7).2)).reverse ∧
      disconnectOrder (newCalls constructedKernel
          (load Hooks.refuse .Generator constructedKernel 7).2) ≠
        (bindOrder (newCalls constructedKernel
          (load Hooks.refuse .Generator constructedKernel 7).2)).reverse ∧
      disconnectOrder (newCalls constructedKernel
          (load Hooks.refuse .Estimator constructedKernel 7).2) ≠
        (bindOrder (newCalls constructedKernel
          (load Hooks.refuse .Estimator constructedKernel 7).2)).reverse := by
  decide

/-- C20 as amended: when enableAspect fails during load of a Controller, Generator or
Estimator, every port just bound is disconnected, in a fixed order of its own, not the
reverse of the bind order. Controller: bound Outputs, SetPoints, Models, Inputs and
disconnected Models, Outputs, SetPoints, Inputs. Generator: bound SetPoints, Models,
Inputs, Commands and disconnected Models, Commands, SetPoints, Inputs. Estimator: bound
Models, Inputs and disconnected Models, Inputs. -/
theorem rollback_order (h : Hooks) (k : Kernel) (c : Comp)
    (hr : isRunning k = false) (he : h.enableAspect c = false) :
    (bindOrder (newCalls k (load h .Controller k c).2) =
          [k.outputs, k.setpoints, k.models, k.inputs] ∧
        disconnectOrder (newCalls k (load h .Controller k c).2) =
          [k.models, k.outputs, k.setpoints, k.inputs]) ∧
      (bindOrder (newCalls k (load h .Generator k c).2) =
          [k.setpoints, k.models, k.inputs, k.commands] ∧
        disconnectOrder (newCalls k (load h .Generator k c).2) =
          [k.models, k.commands, k.setpoints, k.inputs]) ∧
      (bindOrder (newCalls k (load h .Estimator k c).2) = [k.models, k.inputs] ∧
        disconnectOrder (newCalls k (load h .Estimator k c).2) = [k.models, k.inputs]) := by
  have e1 : (load h .Controller k c).2.calls = k.calls ++
      [.writeTo c k.outputs, .readFrom c k.setpoints, .readFrom c k.models,
        .readFrom c k.inputs, .enableAspect c, .disconnect c k.models,
        .disconnect c k.outputs, .disconnect c k.setpoints, .disconnect c k.inputs] := by
    simp [load, loadController, hr, he, enableAspect, readFrom, writeTo, disconnect]
  have e2 : (load h .Generator k c).2.calls = k.calls ++
      [.writeTo c k.setpoints, .readFrom c k.models, .readFrom c k.inputs,
        .readFrom c k.commands, .enableAspect c, .disconnect c k.models,
        .disconnect c k.commands, .disconnect c k.setpoints, .disconnect c k.inputs] := by
    simp [load, loadGenerator, hr, he, enableAspect, readFrom, writeTo, disconnect]
  have e3 : (load h .Estimator k c).2.calls = k.calls ++
      [.writeTo c k.models, .readFrom c k.inputs, .enableAspect c,
        .disconnect c k.models, .disconnect c k.inputs] := by
    simp [load, loadEstimator, hr, he, enableAspect, readFrom, writeTo, disconnect]
  rw [newCalls_of_append _ _ _ e1, newCalls_of_append _ _ _ e2, newCalls_of_append _ _ _ e3]
  exact ⟨⟨rfl, rfl⟩, ⟨rfl, rfl⟩, ⟨rfl, rfl⟩⟩

theorem rollback_order_witness :
    isRunning constructedKernel = false ∧ Hooks.refuse.enableAspect 7 = false ∧
      ((bindOrder (newCalls constructedKernel
            (load Hooks.refuse .Controller constructedKernel 7).2) =
            [constructedKernel.outputs, constructedKernel.setpoints,
              constructedKernel.models, constructedKernel.inputs] ∧
          disconnectOrder (newCalls constructedKernel
            (load Hooks.refuse .Controller constructedKernel 7).2) =
            [constructedKernel.models, constructedKernel.outputs,
              constructedKernel.setpoints, constructedKernel.inputs]) ∧
        (bindOrder (newCalls constructedKernel
            (load Hooks.refuse .Generator constructedKernel 7).2) =
            [constructedKernel.setpoints, constructedKernel.models,
              constructedKernel.inputs, constructedKernel.commands] ∧
          disconnectOrder (newCalls constructedKernel
            (load Hooks.refuse .Generator constructedKernel 7).2) =
            [constructedKernel.models, constructedKernel.commands,
              constructedKernel.setpoints, constructedKernel.inputs]) ∧
        (bindOrder (newCalls constructedKernel
            (load Hooks.refuse .Estimator constructedKernel 7).2) =
            [constructedKernel.models, constructedKernel.inputs] ∧
          disconnectOrder (newCalls constructedKernel
            (load Hooks.refuse .Estimator constructedKernel 7).2) =
            [constructedKernel.models, constructedKernel.inputs])) :=
  ⟨rfl, rfl, rollback_order Hooks.refuse constructedKernel 7 rfl rfl⟩

/-! ## What the operations leave alone -/

theorem load_frame_eq (h : Hooks) (r : Role) (k : Kernel) (c : Comp) :
    (load h r k c).2.frame = k.frame.loadFrame (h.enableAspect c) r c := by
  cases r <;> cases hr : isRunning k <;> cases he : h.enableAspect c <;>
    simp_all [load, loadController, loadGenerator, loadEstimator, loadSensor, loadEffector,
      loadSupport, enableAspect, readFrom, writeTo, disconnect, Kernel.frame,
      Kernel.loadFrame, Kernel.setRegistry, Kernel.registry, isRunning]

theorem unload_frame (r : Role) (k : Kernel) (c : Comp) :
    (unload r k c).2.frame = k.frame ∨
      (unload r k c).2.frame = (k.setRegistry r ((k.registry r).erase c)).frame := by
  by_cases hm : c ∈ k.registry r <;> cases r <;> cases hr : isRunning k <;>
    simp_all [unload, unloadController, unloadGenerator, unloadEstimator, unloadSensor,
      unloadEffector, unloadSupport, disableAspect, disconnect, Kernel.frame,
      Kernel.setRegistry, Kernel.registry]

theorem select_active_cases (h : Hooks) (r : SelRole) (k : Kernel) (c : Comp) :
    (select h r k c).2.active r = k.active r ∨ (select h r k c).2.active r = c := by
  cases r
  all_goals
    simp only [select, selectController, selectGenerator, selectEstimator, selectSensor,
      selectEffector]
    split
    · exact Or.inl rfl
    · cases hs : h.componentStartup c
      · left
        simp only [componentStartup, componentShutdown, hs]
        rfl
      · right
        simp only [componentStartup, componentShutdown, hs]
        rfl

theorem select_self_frame (h : Hooks) (r : SelRole) (k : Kernel) :
    (select h r k (k.active r)).2.frame = k.frame := by
  have ha : (select h r k (k.active r)).2.active r = k.active r := by
    rcases select_active_cases h r k (k.active r) with e | e <;> exact e
  rw [select_shape, ha]
  cases r <;> rfl

theorem frame_active (k : Kernel) (sr : SelRole) : k.frame.active sr = k.active sr := by
  cases sr <;> rfl

theorem frame_registry (k : Kernel) (ro : Role) : k.frame.registry ro = k.registry ro := by
  cases ro <;> rfl

theorem loadFrame_active (f : Kernel) (e : Bool) (r : Role) (c : Comp) (sr : SelRole) :
    (f.loadFrame e r c).active sr = f.active sr := by
  unfold Kernel.loadFrame
  split
  · rfl
  · cases r <;> cases sr <;> rfl

theorem loadFrame_views (f : Kernel) (e : Bool) (r : Role) (c : Comp) :
    (f.loadFrame e r c).selView = f.selView ∧ (f.loadFrame e r c).dataView = f.dataView ∧
      (f.loadFrame e r c).running = f.running := by
  unfold Kernel.loadFrame
  split
  · exact ⟨rfl, rfl, rfl⟩
  · cases r <;> exact ⟨rfl, rfl, rfl⟩

theorem loadFrame_registry_ne (f : Kernel) (e : Bool) (r ro : Role) (c : Comp)
    (hne : ro ≠ r) : (f.loadFrame e r c).registry ro = f.registry ro := by
  unfold Kernel.loadFrame
  split
  · rfl
  · cases r <;> cases ro <;> first | rfl | exact absurd rfl hne

theorem loadFrame_registry_mono (f : Kernel) (e : Bool) (r ro : Role) (c x : Comp)
    (hx : x ∈ f.registry ro) : x ∈ (f.loadFrame e r c).registry ro := by
  unfold Kernel.loadFrame
  split
  · exact hx
  · cases r <;> cases ro <;>
      first
      | exact hx
      | exact List.mem_append_left _ hx

theorem loadFrame_registry_mem (f : Kernel) (r : Role) (c : Comp)
    (hr : f.running = false) : c ∈ (f.loadFrame true r c).registry r := by
  unfold Kernel.loadFrame
  simp only [hr, Bool.not_true, Bool.or_self, Bool.false_eq_true, if_false]
  cases r <;> exact List.mem_append_right _ (List.mem_singleton_self c)

theorem load_active (h : Hooks) (r : Role) (k : Kernel) (c : Comp) (sr : SelRole) :
    (load h r k c).2.active sr = k.active sr := by
  rw [← frame_active, load_frame_eq, loadFrame_active, frame_active]

theorem BaseKernel_stages (h : Hooks) (k0 k1 k2 k3 k4 k5 k7 k8 k9 k10 k11 : Kernel)
    (h1 : k1 = (load h .Controller k0 (k0.active .Controller)).2)
    (h2 : k2 = (load h .Generator k1 (k1.active .Generator)).2)
    (h3 : k3 = (load h .Estimator k2 (k2.active .Estimator)).2)
    (h4 : k4 = (load h .Effector k3 (k3.active .Effector)).2)
    (h5 : k5 = (load h .Sensor k4 (k4.active .Sensor)).2)
    (h7 : k7 = (select h .Controller { k5 with running := true }
      (Kernel.active { k5 with running := true } .Controller)).2)
    (h8 : k8 = (select h .Generator k7 (k7.active .Generator)).2)
    (h9 : k9 = (select h .Estimator k8 (k8.active .Estimator)).2)
    (h10 : k10 = (select h .Effector k9 (k9.active .Effector)).2)
    (h11 : k11 = (select h .Sensor k10 (k10.active .Sensor)).2) :
    Kernel.frame { k11 with running := false } =
      { ((((k0.frame.loadFrame (h.enableAspect (k0.active .Controller)) .Controller
              (k0.active .Controller)).loadFrame
            (h.enableAspect (k0.active .Generator)) .Generator (k0.active .Generator)).loadFrame
            (h.enableAspect (k0.active .Estimator)) .Estimator (k0.active .Estimator)).loadFrame
            (h.enableAspect (k0.active .Effector)) .Effector (k0.active .Effector)).loadFrame
            (h.enableAspect (k0.active .Sensor)) .Sensor (k0.active .Sensor)
        with running := false } := by
  have a1 : ∀ sr, k1.active sr = k0.active sr := fun sr => by rw [h1, load_active]
  have a2 : ∀ sr, k2.active sr = k0.active sr := fun sr => by rw [h2, load_active, a1]
  have a3 : ∀ sr, k3.active sr = k0.active sr := fun sr => by rw [h3, load_active, a2]
  have a4 : ∀ sr, k4.active sr = k0.active sr := fun sr => by rw [h4, load_active, a3]
  have f1 := congrArg Kernel.frame h1
  have f2 := congrArg Kernel.frame h2
  have f3 := congrArg Kernel.frame h3
  have f4 := congrArg Kernel.frame h4
  have f5 := congrArg Kernel.frame h5
  rw [load_frame_eq] at f1 f2 f3 f4 f5
  rw [a4, f4, a3, f3, a2, f2, a1, f1] at f5
  have g7 : k7.frame = Kernel.frame { k5 with running := true } := by
    rw [h7, select_self_frame]
  have g8 : k8.frame = k7.frame := by rw [h8, select_self_frame]
  have g9 : k9.frame = k8.frame := by rw [h9, select_self_frame]
  have g10 : k10.frame = k9.frame := by rw [h10, select_self_frame]
  have g11 : k11.frame = k10.frame := by rw [h11, select_self_frame]
  have e : Kernel.frame { k11 with running := false } =
      { k11.frame with running := false } := rfl
  rw [e, g11, g10, g9, g8, g7, ← f5]
  rfl

theorem BaseKernel_frame (h : Hooks) : (BaseKernel h).frame = BaseKernel.defaults h :=
  BaseKernel_stages h BaseKernel.members _ _ _ _ _ _ _ _ _ _ rfl rfl rfl rfl rfl rfl rfl rfl
    rfl rfl

theorem BaseKernel_defaults_facts (h : Hooks) :
    (BaseKernel.defaults h).selView = BaseKernel.members.selView ∧
      (BaseKernel.defaults h).dataView = BaseKernel.members.dataView ∧
      (BaseKernel.defaults h).running = false ∧
      (BaseKernel.defaults h).supports = [] ∧
      (BaseKernel.defaults h).controllers = (if h.enableAspect 0 then [0] else []) ∧
      (BaseKernel.defaults h).generators = (if h.enableAspect 1 then [1] else []) ∧
      (BaseKernel.defaults h).estimators = (if h.enableAspect 2 then [2] else []) ∧
      (BaseKernel.defaults h).effectors = (if h.enableAspect 3 then [3] else []) ∧
      (BaseKernel.defaults h).sensors = (if h.enableAspect 4 then [4] else []) := by
  unfold BaseKernel.defaults
  generalize h.enableAspect 0 = e0
  generalize h.enableAspect 1 = e1
  generalize h.enableAspect 2 = e2
  generalize h.enableAspect 3 = e3
  generalize h.enableAspect 4 = e4
  cases e0 <;> cases e1 <;> cases e2 <;> cases e3 <;> cases e4 <;>
    exact ⟨rfl, rfl, rfl, rfl, rfl, rfl, rfl, rfl, rfl⟩

theorem dataView_channel (k k2 : Kernel) (e : k2.dataView = k.dataView) (ch : Channel) :
    k2.dataObject ch = k.dataObject ch ∧ k2.localObject ch = k.localObject ch ∧
      k2.external ch = k.external ch := by
  simp only [Kernel.dataView, List.cons.injEq, Prod.mk.injEq, and_true] at e
  obtain ⟨⟨e1, e2, e3⟩, ⟨e4, e5, e6⟩, ⟨e7, e8, e9⟩, ⟨e10, e11, e12⟩, e13, e14, e15⟩ := e
  cases ch <;>
    simp [Kernel.dataObject, Kernel.localObject, Kernel.external, getCommands, getSetpoints,
      getModels, getInputs, getOutputs, *]

theorem selView_role (k k2 : Kernel) (e : k2.selView = k.selView) (sr : SelRole) :
    k2.active sr = k.active sr ∧ k2.dummy sr = k.dummy sr := by
  simp only [Kernel.selView, List.cons.injEq, Prod.mk.injEq, and_true] at e
  obtain ⟨⟨e1, e2⟩, ⟨e3, e4⟩, ⟨e5, e6⟩, ⟨e7, e8⟩, e9, e10⟩ := e
  cases sr <;> simp [Kernel.active, Kernel.dummy, *]

theorem frame_dataView (k : Kernel) : k.frame.dataView = k.dataView := rfl

theorem frame_selView (k : Kernel) : k.frame.selView = k.selView := rfl

theorem frame_running (k : Kernel) : k.frame.running = k.running := rfl

theorem load_dataView (h : Hooks) (r : Role) (k : Kernel) (c : Comp) :
    (load h r k c).2.dataView = k.dataView := by
  rw [← frame_dataView, load_frame_eq, (loadFrame_views _ _ _ _).2.1, frame_dataView]

theorem unload_dataView (r : Role) (k : Kernel) (c : Comp) :
    (unload r k c).2.dataView = k.dataView := by
  rw [← frame_dataView]
  rcases unload_frame r k c with e | e
  · rw [e]; rfl
  · rw [e]; cases r <;> rfl

theorem select_dataView (h : Hooks) (r : SelRole) (k : Kernel) (c : Comp) :
    (select h r k c).2.dataView = k.dataView := by
  rw [select_shape]
  cases r <;> rfl

theorem initializeKernel_dataView (h : Hooks) (extOk : Bool) (k : Kernel) :
    (initializeKernel h extOk k).2.dataView = k.dataView := by
  cases extOk
  · rw [initializeKernel_refused]; rfl
  · rw [initializeKernel_accepted]; rfl

theorem step_dataView (k : Kernel) : (step k).dataView = k.dataView := by
  unfold step
  split <;> rfl

theorem finalize_dataView (k : Kernel) : (finalize k).dataView = k.dataView := by
  rw [finalize_eq]; rfl

/-- Every call other than a setter leaves the data-object references, the local
instances and the external flags as they are. -/
theorem apply_dataView (op : Op) (k : Kernel) (hs : op.isSet = false) :
    (op.apply k).dataView = k.dataView := by
  cases op with
  | callLoad h r c => exact load_dataView h r k c
  | callUnload r c => exact unload_dataView r k c
  | callSelect h r c => exact select_dataView h r k c
  | callSet ch d => simp [Op.isSet] at hs
  | callInitialize h extOk => exact initializeKernel_dataView h extOk k
  | callStep => exact step_dataView k
  | callFinalize => exact finalize_dataView k

theorem run_dataView (ops : List Op) (k : Kernel) (hs : ∀ op ∈ ops, op.isSet = false) :
    (run ops k).dataView = k.dataView := by
  induction ops generalizing k with
  | nil => rfl
  | cons op ops ih =>
    have e : run (op :: ops) k = run ops (op.apply k) := rfl
    rw [e, ih (op.apply k) (fun o ho => hs o (List.mem_cons_of_mem _ ho)),
      apply_dataView op k (hs op (List.mem_cons_self _ _))]

theorem BaseKernel_dataView (h : Hooks) :
    (BaseKernel h).dataView = BaseKernel.members.dataView := by
  rw [← frame_dataView, BaseKernel_frame, (BaseKernel_defaults_facts h).2.1]

/-- The setter of one channel: what it sets and what it leaves. -/
theorem setData_effect (ch : Channel) (k : Kernel) (d : DataObject) :
    (setData ch k d).dataObject ch = d ∧ (setData ch k d).external ch = true ∧
      (∀ c2, (setData ch k d).localObject c2 = k.localObject c2) ∧
      (∀ c2, c2 ≠ ch → (setData ch k d).dataObject c2 = k.dataObject c2 ∧
        (setData ch k d).external c2 = k.external c2) := by
  refine ⟨by cases ch <;> rfl, by cases ch <;> rfl, fun c2 => by cases ch <;> cases c2 <;> rfl,
    fun c2 hne => ?_⟩
  cases ch <;> cases c2 <;> first | exact absurd rfl hne | exact ⟨rfl, rfl⟩

theorem apply_localFallback (op : Op) (k : Kernel) (hk : LocalFallback k) :
    LocalFallback (op.apply k) := by
  cases hop : op.isSet
  · intro ch hch
    obtain ⟨e1, e2, e3⟩ := dataView_channel k (op.apply k) (apply_dataView op k hop) ch
    rw [e1, e2]
    exact hk ch (e3 ▸ hch)
  · cases op with
    | callSet c0 d =>
      intro ch hch
      obtain ⟨s1, s2, s3, s4⟩ := setData_effect c0 k d
      by_cases hc : ch = c0
      · subst hc
        change (setData ch k d).external ch = false at hch
        rw [s2] at hch
        exact absurd hch (by decide)
      · change (setData c0 k d).external ch = false at hch
        change (setData c0 k d).dataObject ch = (setData c0 k d).localObject ch
        rw [(s4 ch hc).1, s3 ch]
        exact hk ch ((s4 ch hc).2 ▸ hch)
    | callLoad h r c => simp [Op.isSet] at hop
    | callUnload r c => simp [Op.isSet] at hop
    | callSelect h r c => simp [Op.isSet] at hop
    | callInitialize h extOk => simp [Op.isSet] at hop
    | callStep => simp [Op.isSet] at hop
    | callFinalize => simp [Op.isSet] at hop

theorem run_localFallback (ops : List Op) (k : Kernel) (hk : LocalFallback k) :
    LocalFallback (run ops k) := by
  induction ops generalizing k with
  | nil => exact hk
  | cons op ops ih => exact ih (op.apply k) (apply_localFallback op k hk)

theorem members_dataView_facts (k : Kernel) (e : k.dataView = BaseKernel.members.dataView)
    (ch : Channel) : k.external ch = false ∧ k.dataObject ch = k.localObject ch := by
  obtain ⟨e1, e2, e3⟩ := dataView_channel BaseKernel.members k e ch
  rw [e1, e2, e3]
  cases ch <;> exact ⟨rfl, rfl⟩

/-! ## Construction and data-object substitution -/

/-- C13, the claim as stated fails: when the aspect of the default components cannot be
enabled, the constructor leaves every default component active but not loaded. -/
theorem refused_defaults_not_loaded :
    refusedKernel.active .Controller = refusedKernel.dummy .Controller ∧
      isLoaded .Controller refusedKernel (refusedKernel.dummy .Controller) = false ∧
      isLoaded .Generator refusedKernel (refusedKernel.dummy .Generator) = false ∧
      isLoaded .Estimator refusedKernel (refusedKernel.dummy .Estimator) = false ∧
      isLoaded .Sensor refusedKernel (refusedKernel.dummy .Sensor) = false ∧
      isLoaded .Effector refusedKernel (refusedKernel.dummy .Effector) = false := by
  decide

/-- C13 as amended: immediately after construction, for each of the five selectable
roles the active component is the default no-op component of the role, and that default
is loaded in the registry of the role provided its enableAspect returned true; the
kernel is not running, the Support registry is empty, all five external flags are false
and every data-object getter returns the local instance of the kernel. -/
theorem constructed_state (h : Hooks) :
    (∀ sr, (BaseKernel h).active sr = (BaseKernel h).dummy sr) ∧
      isRunning (BaseKernel h) = false ∧
      (BaseKernel h).registry .Support = [] ∧
      (∀ ch, (BaseKernel h).external ch = false ∧
        (BaseKernel h).dataObject ch = (BaseKernel h).localObject ch) ∧
      (∀ sr, h.enableAspect ((BaseKernel h).dummy sr) = true →
        isLoaded sr.toRole (BaseKernel h) ((BaseKernel h).dummy sr) = true) := by
  have hf := BaseKernel_frame h
  obtain ⟨fsel, _, frun, fsup, fc, fg, fe, fx, fs⟩ := BaseKernel_defaults_facts h
  have hsel : (BaseKernel h).selView = BaseKernel.members.selView := by
    rw [← frame_selView, hf, fsel]
  have hmem : ∀ sr, BaseKernel.members.active sr = BaseKernel.members.dummy sr :=
    fun sr => by cases sr <;> rfl
  refine ⟨?_, ?_, ?_, fun ch => members_dataView_facts _ (BaseKernel_dataView h) ch, ?_⟩
  · intro sr
    obtain ⟨e1, e2⟩ := selView_role BaseKernel.members (BaseKernel h) hsel sr
    rw [e1, e2, hmem]
  · unfold isRunning
    rw [← frame_running, hf, frun]
  · rw [← frame_registry, hf]
    exact fsup
  · intro sr he
    rw [(selView_role BaseKernel.members (BaseKernel h) hsel sr).2] at he ⊢
    rw [isLoaded_eq_decide, decide_eq_true_iff, ← frame_registry, hf]
    cases sr
    · have he0 : h.enableAspect 0 = true := he
      show 0 ∈ (BaseKernel.defaults h).controllers
      rw [fc, he0]; simp
    · have he0 : h.enableAspect 1 = true := he
      show 1 ∈ (BaseKernel.defaults h).generators
      rw [fg, he0]; simp
    · have he0 : h.enableAspect 2 = true := he
      show 2 ∈ (BaseKernel.defaults h).estimators
      rw [fe, he0]; simp
    · have he0 : h.enableAspect 4 = true := he
      show 4 ∈ (BaseKernel.defaults h).sensors
      rw [fs, he0]; simp
    · have he0 : h.enableAspect 3 = true := he
      show 3 ∈ (BaseKernel.defaults h).effectors
      rw [fx, he0]; simp

/-- C14: for each of the five channels, after construction and any sequence of calls
that contains no setter, the getter returns the local instance of the kernel and the
external flag of the channel is false; after `setX(ext)` the getter returns `ext` and
the external flag is true (spelled out for `setOutputs`/`getOutputs` as well). -/
theorem getters_and_setters :
    (∀ (h : Hooks) (ops : List Op), (∀ op ∈ ops, op.isSet = false) →
        ∀ ch, (run ops (BaseKernel h)).dataObject ch = (run ops (BaseKernel h)).localObject ch ∧
          (run ops (BaseKernel h)).external ch = false) ∧
      (∀ (k : Kernel) (ch : Channel) (ext : DataObject),
        (setData ch k ext).dataObject ch = ext ∧ (setData ch k ext).external ch = true) ∧
      (∀ (h : Hooks), getOutputs (BaseKernel h) = (BaseKernel h).local_outputs) ∧
      (∀ (k : Kernel) (ext : DataObject),
        getOutputs (setOutputs k ext) = ext ∧ (setOutputs k ext).externalOutputs = true) := by
  refine ⟨?_, ?_, ?_, fun _ _ => ⟨rfl, rfl⟩⟩
  · intro h ops hs ch
    have e : (run ops (BaseKernel h)).dataView = BaseKernel.members.dataView := by
      rw [run_dataView ops _ hs, BaseKernel_dataView]
    exact ⟨(members_dataView_facts _ e ch).2, (members_dataView_facts _ e ch).1⟩
  · intro k ch ext
    exact ⟨(setData_effect ch k ext).1, (setData_effect ch k ext).2.1⟩
  · intro h
    exact (members_dataView_facts _ (BaseKernel_dataView h) .Outputs).2

/-- C15: `setX(ext)` for one channel changes only the data-object reference and the
external flag of that channel: the five local instances, the references and flags of the
other four channels, every registry and every active pointer are unchanged; and in
every reachable state a channel whose external flag is false refers to its local
instance. -/
theorem setter_frame :
    (∀ (k : Kernel) (ch : Channel) (ext : DataObject),
        (∀ c2, (setData ch k ext).localObject c2 = k.localObject c2) ∧
        (∀ c2, c2 ≠ ch → (setData ch k ext).dataObject c2 = k.dataObject c2 ∧
          (setData ch k ext).external c2 = k.external c2) ∧
        (∀ ro, (setData ch k ext).registry ro = k.registry ro) ∧
        (∀ sr, (setData ch k ext).active sr = k.active sr)) ∧
      (∀ k, Reachable k →
        ∀ ch, k.external ch = false → k.dataObject ch = k.localObject ch) := by
  constructor
  · intro k ch ext
    refine ⟨(setData_effect ch k ext).2.2.1, (setData_effect ch k ext).2.2.2, ?_, ?_⟩
    · intro ro
      cases ch <;> cases ro <;> rfl
    · intro sr
      cases ch <;> cases sr <;> rfl
  · rintro k ⟨h, ops, rfl⟩
    apply run_localFallback
    intro ch _
    exact (members_dataView_facts _ (BaseKernel_dataView h) ch).2

/-! ## Step -/

theorem step_running (k : Kernel) (hr : isRunning k = true) : step k = Extension.step k := by
  simp [step, hr]

theorem step_stopped (k : Kernel) (hr : isRunning k = false) :
    step k = KernelBaseFunction.finalize k := by
  simp [step, hr]

/-- C21: for every kernel state in which `isRunning()` is false, after `step()` the
active component of each of the five selectable roles is the default no-op component of
that role (`step()` takes the branch `KernelBaseFunction::finalize()`). -/
theorem step_failsafe (k : Kernel) (hr : isRunning k = false) :
    ∀ sr, (step k).active sr = k.dummy sr ∧ (step k).dummy sr = k.dummy sr := by
  intro sr
  rw [step_stopped k hr]
  cases sr <;> exact ⟨rfl, rfl⟩

theorem step_failsafe_witness :
    isRunning stoppedActiveKernel = false ∧
      ∀ sr, (step stoppedActiveKernel).active sr = stoppedActiveKernel.dummy sr ∧
        (step stoppedActiveKernel).dummy sr = stoppedActiveKernel.dummy sr :=
  ⟨rfl, step_failsafe stoppedActiveKernel rfl⟩

/-- C27: `step()` dispatches on the running predicate only: if `isRunning()` holds its
only call is the step of the execution strategy, once; if not, its only call is
`KernelBaseFunction::finalize()`, once; so in neither case is there a componentShutdown
call or the stopped event, and no registry, data-object reference or external flag
changes. -/
theorem step_dispatch (k : Kernel) :
    (isRunning k = true → newCalls k (step k) = [Call.extensionStep]) ∧
      (isRunning k = false → newCalls k (step k) = [Call.baseFinalize]) ∧
      shutdownOrder (newCalls k (step k)) = [] ∧
      Call.kernelStopped ∉ newCalls k (step k) ∧
      (∀ ro, (step k).registry ro = k.registry ro) ∧
      (∀ ch, (step k).dataObject ch = k.dataObject ch ∧
        (step k).external ch = k.external ch) := by
  have e1 : isRunning k = true → newCalls k (step k) = [Call.extensionStep] := fun hr =>
    newCalls_of_append _ _ _ (by rw [step_running k hr]; rfl)
  have e2 : isRunning k = false → newCalls k (step k) = [Call.baseFinalize] := fun hr =>
    newCalls_of_append _ _ _ (by rw [step_stopped k hr]; rfl)
  refine ⟨e1, e2, ?_, ?_, ?_, ?_⟩
  · cases hr : isRunning k
    · rw [e2 hr]; rfl
    · rw [e1 hr]; rfl
  · cases hr : isRunning k
    · rw [e2 hr]; simp
    · rw [e1 hr]; simp
  · intro ro
    cases hr : isRunning k
    · rw [step_stopped k hr]; cases ro <;> rfl
    · rw [step_running k hr]; cases ro <;> rfl
  · intro ch
    cases hr : isRunning k
    · rw [step_stopped k hr]; cases ch <;> exact ⟨rfl, rfl⟩
    · rw [step_running k hr]; cases ch <;> exact ⟨rfl, rfl⟩

/-! ## The hook calls of select -/

/-- C26: for every selectable role and every loaded component `c`, with the kernel
running and `p` the previously active component, the calls of `select(c)` are
componentShutdown on `p`, then componentStartup on `c`, and, only if that startup
returned false, componentStartup on `p`; there is no other call. -/
theorem select_hook_calls (h : Hooks) (r : SelRole) (k : Kernel) (c : Comp)
    (hl : c ∈ k.registry r.toRole) (hr : isRunning k = true) :
    newCalls k (select h r k c).2 =
      if h.componentStartup c then
        [Call.componentShutdown (k.active r), Call.componentStartup c]
      else
        [Call.componentShutdown (k.active r), Call.componentStartup c,
          Call.componentStartup (k.active r)] := by
  apply newCalls_of_append
  cases r <;> cases hs : h.componentStartup c <;>
    simp_all [select, selectController, selectGenerator, selectEstimator, selectSensor,
      selectEffector, isLoadedController, isLoadedGenerator, isLoadedEstimator,
      isLoadedSensor, isLoadedEffector, Kernel.registry, SelRole.toRole, Kernel.active,
      componentStartup, componentShutdown]

theorem select_hook_calls_witness :
    8 ∈ twoSensorKernel.registry SelRole.Sensor.toRole ∧ isRunning twoSensorKernel = true ∧
      newCalls twoSensorKernel (select Hooks.refuse .Sensor twoSensorKernel 8).2 =
        (if Hooks.refuse.componentStartup 8 then
          [Call.componentShutdown (twoSensorKernel.active .Sensor), Call.componentStartup 8]
        else
          [Call.componentShutdown (twoSensorKernel.active .Sensor), Call.componentStartup 8,
            Call.componentStartup (twoSensorKernel.active .Sensor)]) :=
  ⟨by decide, rfl, select_hook_calls Hooks.refuse .Sensor twoSensorKernel 8 (by decide) rfl⟩

/-! ## Name-based operations -/

/-- C22: for every role and each name-based operation (load, unload, select, isLoaded
by name): if the name server of the role has no component under the name, the operation
returns false and leaves the kernel unchanged; if it has component `c` under the name,
the operation is the pointer-based operation on `c`, result and effect. -/
theorem named_operations (ns : NameServer) (h : Hooks) (k : Kernel) (name : String) :
    (∀ r, getObjectByName ns r name = none →
        loadNamed ns h r k name = (false, k) ∧ unloadNamed ns r k name = (false, k) ∧
          isLoadedNamed ns r k name = false) ∧
      (∀ sr, getObjectByName ns sr.toRole name = none →
        selectNamed ns h sr k name = (false, k)) ∧
      (∀ r c, getObjectByName ns r name = some c →
        loadNamed ns h r k name = load h r k c ∧ unloadNamed ns r k name = unload r k c ∧
          isLoadedNamed ns r k name = isLoaded r k c) ∧
      (∀ sr c, getObjectByName ns sr.toRole name = some c →
        selectNamed ns h sr k name = select h sr k c) := by
  refine ⟨?_, ?_, ?_, ?_⟩
  · intro r hn
    cases r <;>
      simp [loadNamed, unloadNamed, isLoadedNamed, loadControllerNamed,
        loadGeneratorNamed, loadEstimatorNamed, loadSensorNamed, loadEffectorNamed,
        loadSupportNamed, unloadControllerNamed, unloadGeneratorNamed, unloadEstimatorNamed,
        unloadSensorNamed, unloadEffectorNamed, unloadSupportNamed, isLoadedControllerNamed,
        isLoadedGeneratorNamed, isLoadedEstimatorNamed, isLoadedSensorNamed,
        isLoadedEffectorNamed, isLoadedSupportNamed, hn]
  · intro sr hn
    cases sr <;>
      simp only [SelRole.toRole] at hn <;>
      simp [selectNamed, selectControllerNamed, selectGeneratorNamed,
        selectEstimatorNamed, selectSensorNamed, selectEffectorNamed, hn]
  · intro r c hn
    cases r <;>
      simp [loadNamed, unloadNamed, isLoadedNamed, loadControllerNamed,
        loadGeneratorNamed, loadEstimatorNamed, loadSensorNamed, loadEffectorNamed,
        loadSupportNamed, unloadControllerNamed, unloadGeneratorNamed, unloadEstimatorNamed,
        unloadSensorNamed, unloadEffectorNamed, unloadSupportNamed, isLoadedControllerNamed,
        isLoadedGeneratorNamed, isLoadedEstimatorNamed, isLoadedSensorNamed,
        isLoadedEffectorNamed, isLoadedSupportNamed, hn, load, unload, isLoaded]
  · intro sr c hn
    cases sr <;>
      simp only [SelRole.toRole] at hn <;>
      simp [selectNamed, selectControllerNamed, selectGeneratorNamed,
        selectEstimatorNamed, selectSensorNamed, selectEffectorNamed, hn, select]

/-! ## CORBA transport -/

/-- C24: `updateFromAny(any, target)` returns true exactly when the target narrows to an
assignable data source of `T` and the conversion of `any` to a `T` value succeeds; on
true the value of the target is the converted value, on false the target is unchanged.
`createDataSource` returns a data source holding the converted value exactly when the
conversion succeeds. -/
theorem updateFromAny_spec {Any T : Type} (update : Any → Option T) (any : Any)
    (target : DataSourceBase T) :
    ((CorbaTemplateProtocol.updateFromAny update any target).1 = true ↔
        (AssignableDataSource.narrow target).isSome = true ∧ (update any).isSome = true) ∧
      (∀ v, (CorbaTemplateProtocol.updateFromAny update any target).1 = true →
        update any = some v →
          (CorbaTemplateProtocol.updateFromAny update any target).2 = .assignable v) ∧
      ((CorbaTemplateProtocol.updateFromAny update any target).1 = false →
        (CorbaTemplateProtocol.updateFromAny update any target).2 = target) ∧
      (∀ dflt, CorbaTemplateProtocol.createDataSource update dflt any =
        (update any).map DataSourceBase.assignable) := by
  refine ⟨?_, ?_, ?_, ?_⟩
  · cases target <;> cases hu : update any <;>
      simp [CorbaTemplateProtocol.updateFromAny, AssignableDataSource.narrow, hu]
  · intro v
    cases target <;> cases hu : update any <;>
      simp [CorbaTemplateProtocol.updateFromAny, AssignableDataSource.narrow, hu]
  · cases target <;> cases hu : update any <;>
      simp [CorbaTemplateProtocol.updateFromAny, AssignableDataSource.narrow, hu]
  · intro dflt
    cases hu : update any <;>
      simp [CorbaTemplateProtocol.createDataSource, CorbaTemplateProtocol.updateFromAny,
        AssignableDataSource.narrow, hu]

/-! ## Selection and the values of the data objects -/

theorem replayWrites_silent (w : HookWrites) (hw : ∀ c, w.startup c = [] ∧ w.shutdown c = [])
    (calls : List Call) (vals : Values) : replayWrites w calls vals = vals := by
  unfold replayWrites
  induction calls generalizing vals with
  | nil => rfl
  | cons call calls ih =>
    rw [List.foldl_cons]
    have e : w.ofCall call = [] := by
      cases call <;> simp [HookWrites.ofCall, (hw _).1, (hw _).2]
    rw [e]
    exact ih vals

theorem select_accepted (h : Hooks) (r : SelRole) (k : Kernel) (c : Comp)
    (hl : c ∈ k.registry r.toRole) (hr : isRunning k = true)
    (hs : h.componentStartup c = true) :
    (select h r k c).1 = true ∧ (select h r k c).2.active r = c := by
  cases r <;>
    simp_all [select, selectController, selectGenerator, selectEstimator, selectSensor,
      selectEffector, isLoadedController, isLoadedGenerator, isLoadedEstimator,
      isLoadedSensor, isLoadedEffector, Kernel.registry, SelRole.toRole, Kernel.active,
      componentStartup, componentShutdown]

theorem select_keeps (h : Hooks) (r : SelRole) (k : Kernel) (c : Comp) :
    isRunning (select h r k c).2 = isRunning k ∧
      (∀ ro, (select h r k c).2.registry ro = k.registry ro) ∧
      (∀ sr, (select h r k c).2.dummy sr = k.dummy sr) ∧
      (∀ ch, (select h r k c).2.dataObject ch = k.dataObject ch) ∧
      (∀ sr, sr ≠ r → (select h r k c).2.active sr = k.active sr) := by
  rw [select_shape h r k c]
  refine ⟨by cases r <;> rfl, fun ro => by cases r <;> cases ro <;> rfl,
    fun sr => by cases r <;> cases sr <;> rfl, fun ch => by cases r <;> cases ch <;> rfl, ?_⟩
  intro sr hne
  cases r <;> cases sr <;> first | rfl | exact absurd rfl hne

/-- C23: for every loaded component `x` of a role and every value `v`, with the kernel
running and `x` active, once `v` has been written into a data object `d`, a
`select(default)` followed by `select(x)`, both succeeding and with no component writing
in its hooks, leaves `d` holding `v`; no data-object reference has been replaced and `x`
is active again. -/
theorem select_round_trip (h : Hooks) (w : HookWrites) (r : SelRole) (s : System)
    (x : Comp) (d : DataObject) (v : Nat)
    (hr : isRunning s.kernel = true) (hx : x ∈ s.kernel.registry r.toRole)
    (hd : s.kernel.dummy r ∈ s.kernel.registry r.toRole) (_ha : s.kernel.active r = x)
    (hs1 : h.componentStartup (s.kernel.dummy r) = true)
    (hs2 : h.componentStartup x = true)
    (hw : ∀ c, w.startup c = [] ∧ w.shutdown c = []) :
    (System.select h w r (s.write d v) (s.kernel.dummy r)).1 = true ∧
      (System.select h w r (System.select h w r (s.write d v) (s.kernel.dummy r)).2 x).1 =
        true ∧
      (System.select h w r
        (System.select h w r (s.write d v) (s.kernel.dummy r)).2 x).2.values d = v ∧
      (∀ ch, (System.select h w r
        (System.select h w r (s.write d v) (s.kernel.dummy r)).2 x).2.kernel.dataObject ch =
          s.kernel.dataObject ch) ∧
      (System.select h w r
        (System.select h w r (s.write d v) (s.kernel.dummy r)).2 x).2.kernel.active r = x := by
  have k1 := select_keeps h r s.kernel (s.kernel.dummy r)
  have a1 := select_accepted h r s.kernel (s.kernel.dummy r) hd hr hs1
  have hx1 : x ∈ (select h r s.kernel (s.kernel.dummy r)).2.registry r.toRole := by
    rw [k1.2.1]; exact hx
  have hr1 : isRunning (select h r s.kernel (s.kernel.dummy r)).2 = true := by
    rw [k1.1]; exact hr
  have a2 := select_accepted h r (select h r s.kernel (s.kernel.dummy r)).2 x hx1 hr1 hs2
  have k2 := select_keeps h r (select h r s.kernel (s.kernel.dummy r)).2 x
  refine ⟨a1.1, a2.1, ?_, ?_, a2.2⟩
  · simp [System.select, System.write, replayWrites_silent w hw, writeValue]
  · intro ch
    exact (k2.2.2.2.1 ch).trans (k1.2.2.2.1 ch)

theorem select_round_trip_witness :
    isRunning activeSensorSystem.kernel = true ∧
      7 ∈ activeSensorSystem.kernel.registry SelRole.Sensor.toRole ∧
      activeSensorSystem.kernel.dummy .Sensor ∈
        activeSensorSystem.kernel.registry SelRole.Sensor.toRole ∧
      activeSensorSystem.kernel.active .Sensor = 7 ∧
      Hooks.accept.componentStartup (activeSensorSystem.kernel.dummy .Sensor) = true ∧
      Hooks.accept.componentStartup 7 = true ∧
      (∀ c, HookWrites.silent.startup c = [] ∧ HookWrites.silent.shutdown c = []) ∧
      ((System.select Hooks.accept HookWrites.silent .Sensor
          (activeSensorSystem.write activeSensorSystem.kernel.inputs 42)
          (activeSensorSystem.kernel.dummy .Sensor)).1 = true ∧
        (System.select Hooks.accept HookWrites.silent .Sensor
          (System.select Hooks.accept HookWrites.silent .Sensor
            (activeSensorSystem.write activeSensorSystem.kernel.inputs 42)
            (activeSensorSystem.kernel.dummy .Sensor)).2 7).1 = true ∧
        (System.select Hooks.accept HookWrites.silent .Sensor
          (System.select Hooks.accept HookWrites.silent .Sensor
            (activeSensorSystem.write activeSensorSystem.kernel.inputs 42)
            (activeSensorSystem.kernel.dummy .Sensor)).2 7).2.values
              activeSensorSystem.kernel.inputs = 42 ∧
        (∀ ch, (System.select Hooks.accept HookWrites.silent .Sensor
          (System.select Hooks.accept HookWrites.silent .Sensor
            (activeSensorSystem.write activeSensorSystem.kernel.inputs 42)
            (activeSensorSystem.kernel.dummy .Sensor)).2 7).2.kernel.dataObject ch =
              activeSensorSystem.kernel.dataObject ch) ∧
        (System.select Hooks.accept HookWrites.silent .Sensor
          (System.select Hooks.accept HookWrites.silent .Sensor
            (activeSensorSystem.write activeSensorSystem.kernel.inputs 42)
            (activeSensorSystem.kernel.dummy .Sensor)).2 7).2.kernel.active .Sensor = 7) :=
  ⟨rfl, by decide, by decide, rfl, rfl, rfl, fun _ => ⟨rfl, rfl⟩,
    select_round_trip Hooks.accept HookWrites.silent .Sensor activeSensorSystem 7
      activeSensorSystem.kernel.inputs 42 rfl (by decide) (by decide) rfl rfl rfl
      (fun _ => ⟨rfl, rfl⟩)⟩

/-! ## Load followed by unload -/

/-- After a successful load, filtering the bindings with a test that rejects the ports
of the role gives what the same filter gives on the bindings before. -/
theorem load_ok_filter (h : Hooks) (r : Role) (k : Kernel) (c : Comp)
    (hr : isRunning k = false) (he : h.enableAspect c = true) (p : Binding → Bool)
    (hp : ∀ b ∈ mandatedPorts k c r, p b = false) :
    (load h r k c).2.bindings.filter p = k.bindings.filter p := by
  cases r
  · have e : (load h .Controller k c).2.bindings =
        addBinding ⟨c, k.inputs, .read⟩ (addBinding ⟨c, k.models, .read⟩
          (addBinding ⟨c, k.setpoints, .read⟩
            (addBinding ⟨c, k.outputs, .write⟩ k.bindings))) := by
      simp [load, loadController, hr, he, enableAspect, readFrom, writeTo]
    rw [e]
    repeat rw [filter_addBinding _ _ _ (hp _ (by simp [mandatedPorts]))]
  · have e : (load h .Generator k c).2.bindings =
        addBinding ⟨c, k.commands, .read⟩ (addBinding ⟨c, k.inputs, .read⟩
          (addBinding ⟨c, k.models, .read⟩
            (addBinding ⟨c, k.setpoints, .write⟩ k.bindings))) := by
      simp [load, loadGenerator, hr, he, enableAspect, readFrom, writeTo]
    rw [e]
    repeat rw [filter_addBinding _ _ _ (hp _ (by simp [mandatedPorts]))]
  · have e : (load h .Estimator k c).2.bindings =
        addBinding ⟨c, k.inputs, .read⟩ (addBinding ⟨c, k.models, .write⟩ k.bindings) := by
      simp [load, loadEstimator, hr, he, enableAspect, readFrom, writeTo]
    rw [e]
    repeat rw [filter_addBinding _ _ _ (hp _ (by simp [mandatedPorts]))]
  · have e : (load h .Sensor k c).2.bindings =
        addBinding ⟨c, k.inputs, .write⟩ k.bindings := by
      simp [load, loadSensor, hr, he, enableAspect, writeTo]
    rw [e]
    repeat rw [filter_addBinding _ _ _ (hp _ (by simp [mandatedPorts]))]
  · have e : (load h .Effector k c).2.bindings =
        addBinding ⟨c, k.outputs, .read⟩ k.bindings := by
      simp [load, loadEffector, hr, he, enableAspect, readFrom]
    rw [e]
    repeat rw [filter_addBinding _ _ _ (hp _ (by simp [mandatedPorts]))]
  · simp [load, loadSupport, hr, he, enableAspect]

theorem load_registry_enabled (h : Hooks) (r : Role) (k : Kernel) (c : Comp)
    (hr : isRunning k = false) (he : h.enableAspect c = true) :
    (load h r k c).2.registry r = k.registry r ++ [c] := by
  cases r <;>
    simp [load, loadController, loadGenerator, loadEstimator, loadSensor, loadEffector,
      loadSupport, hr, he, enableAspect, readFrom, writeTo, Kernel.registry]

theorem load_running_same (h : Hooks) (r : Role) (k : Kernel) (c : Comp) :
    isRunning (load h r k c).2 = isRunning k := by
  unfold isRunning
  rw [← frame_running, load_frame_eq, (loadFrame_views _ _ _ _).2.2, frame_running]

theorem mandatedPorts_congr (k k2 : Kernel) (e : k2.dataView = k.dataView) (c : Comp)
    (r : Role) : mandatedPorts k2 c r = mandatedPorts k c r := by
  simp only [Kernel.dataView, List.cons.injEq, Prod.mk.injEq, and_true] at e
  obtain ⟨⟨e1, _, _⟩, ⟨e4, _, _⟩, ⟨e7, _, _⟩, ⟨e10, _, _⟩, e13, _, _⟩ := e
  cases r <;> simp [mandatedPorts, *]

/-- C30: for every role and every component `c` that is not loaded and has no bindings,
with the kernel not running and the enableAspect of `c` succeeding, `load(c)` followed
immediately by `unload(c)` returns true twice and leaves the registry of the role and
the port bindings equal to what they were before the load. -/
theorem load_then_unload (h : Hooks) (r : Role) (k : Kernel) (c : Comp)
    (hn : c ∉ k.registry r) (hb : ∀ b ∈ k.bindings, b.comp ≠ c)
    (hr : isRunning k = false) (he : h.enableAspect c = true) :
    (load h r k c).1 = true ∧ (unload r (load h r k c).2 c).1 = true ∧
      (unload r (load h r k c).2 c).2.registry r = k.registry r ∧
      (unload r (load h r k c).2 c).2.bindings = k.bindings := by
  have hreg := load_registry_enabled h r k c hr he
  have hmem : c ∈ (load h r k c).2.registry r := by rw [hreg]; simp
  have hr1 : isRunning (load h r k c).2 = false := by rw [load_running_same]; exact hr
  obtain ⟨u1, u2⟩ := unload_registry r (load h r k c).2 c hmem hr1
  refine ⟨by rw [load_result_of_stopped h r k c hr, he], u1, ?_, ?_⟩
  · rw [u2, hreg, List.erase_append_right _ hn]
    simp
  · rw [unload_bindings r (load h r k c).2 c hmem hr1,
      mandatedPorts_congr k (load h r k c).2 (load_dataView h r k c), load_ok_filter h r k c hr he]
    · apply List.filter_eq_self.mpr
      intro b hbm
      simp [hb b hbm]
    · intro b hbm
      have hc : b.comp = c := by
        cases r <;> simp [mandatedPorts] at hbm <;>
          (rcases hbm with rfl | rfl | rfl | rfl <;> rfl)
      have ho : b.obj ∈ (mandatedPorts k c r).map Binding.obj := List.mem_map_of_mem _ hbm
      simp [hc, ho]

theorem load_then_unload_witness :
    9 ∉ constructedKernel.registry .Controller ∧
      (∀ b ∈ constructedKernel.bindings, b.comp ≠ 9) ∧
      isRunning constructedKernel = false ∧ Hooks.accept.enableAspect 9 = true ∧
      ((load Hooks.accept .Controller constructedKernel 9).1 = true ∧
        (unload .Controller (load Hooks.accept .Controller constructedKernel 9).2 9).1 = true ∧
        (unload .Controller (load Hooks.accept .Controller constructedKernel 9).2 9).2.registry
            .Controller = constructedKernel.registry .Controller ∧
        (unload .Controller (load Hooks.accept .Controller constructedKernel 9).2 9).2.bindings =
          constructedKernel.bindings) :=
  ⟨by decide, by decide, rfl, rfl,
    load_then_unload Hooks.accept .Controller constructedKernel 9 (by decide) (by decide)
      rfl rfl⟩

/-! ## Invariants of the registries -/

theorem setRegistry_registry (k : Kernel) (r ro : Role) (l : List Comp) :
    (k.setRegistry r l).registry ro = if ro = r then l else k.registry ro := by
  cases r <;> cases ro <;> rfl

theorem load_registry_cases (h : Hooks) (r : Role) (k : Kernel) (c : Comp) (ro : Role) :
    (load h r k c).2.registry ro = k.registry ro ∨
      (ro = r ∧ (load h r k c).2.registry ro = k.registry ro ++ [c]) := by
  rw [← frame_registry, load_frame_eq]
  unfold Kernel.loadFrame
  split
  · exact Or.inl (frame_registry k ro)
  · rw [setRegistry_registry]
    by_cases e : ro = r
    · subst e
      right
      rw [if_pos rfl, frame_registry]
      exact ⟨rfl, rfl⟩
    · left
      rw [if_neg e, frame_registry]

theorem unload_registry_cases (r : Role) (k : Kernel) (c : Comp) (ro : Role) :
    (unload r k c).2.registry ro = k.registry ro ∨
      (ro = r ∧ (unload r k c).2.registry ro = (k.registry ro).erase c) := by
  rw [← frame_registry]
  rcases unload_frame r k c with e | e
  · rw [e]; exact Or.inl (frame_registry k ro)
  · rw [e, frame_registry, setRegistry_registry]
    by_cases e2 : ro = r
    · subst e2
      right
      rw [if_pos rfl]
      exact ⟨rfl, rfl⟩
    · left
      rw [if_neg e2]

theorem load_selView (h : Hooks) (r : Role) (k : Kernel) (c : Comp) :
    (load h r k c).2.selView = k.selView := by
  rw [← frame_selView, load_frame_eq, (loadFrame_views _ _ _ _).1, frame_selView]

theorem unload_selView (r : Role) (k : Kernel) (c : Comp) :
    (unload r k c).2.selView = k.selView := by
  rw [← frame_selView]
  rcases unload_frame r k c with e | e
  · rw [e]; rfl
  · rw [e]; cases r <;> rfl

theorem select_active_mem (h : Hooks) (r : SelRole) (k : Kernel) (c : Comp) :
    (select h r k c).2.active r = k.active r ∨
      ((select h r k c).2.active r = c ∧ c ∈ k.registry r.toRole) := by
  by_cases hl : c ∈ k.registry r.toRole
  · rcases select_active_cases h r k c with e | e
    · exact Or.inl e
    · exact Or.inr ⟨e, hl⟩
  · left
    cases r <;>
      simp_all [select, selectController, selectGenerator, selectEstimator, selectSensor,
        selectEffector, isLoadedController, isLoadedGenerator, isLoadedEstimator,
        isLoadedSensor, isLoadedEffector, Kernel.registry, SelRole.toRole, Kernel.active]

/-- What one call does to a registry: nothing, or a load appends its argument, or an
unload erases it. -/
theorem apply_registry_cases (op : Op) (k : Kernel) (ro : Role) :
    (op.apply k).registry ro = k.registry ro ∨
      (∃ h c, op = .callLoad h ro c ∧ (op.apply k).registry ro = k.registry ro ++ [c]) ∨
      (∃ c, op = .callUnload ro c ∧ (op.apply k).registry ro = (k.registry ro).erase c) := by
  cases op with
  | callLoad h r c =>
    rcases load_registry_cases h r k c ro with e | ⟨e1, e2⟩
    · exact Or.inl e
    · subst e1; exact Or.inr (Or.inl ⟨h, c, rfl, e2⟩)
  | callUnload r c =>
    rcases unload_registry_cases r k c ro with e | ⟨e1, e2⟩
    · exact Or.inl e
    · subst e1; exact Or.inr (Or.inr ⟨c, rfl, e2⟩)
  | callSelect h r c => exact Or.inl ((select_keeps h r k c).2.1 ro)
  | callSet ch d => exact Or.inl (by cases ch <;> cases ro <;> rfl)
  | callInitialize h extOk =>
    left
    show (initializeKernel h extOk k).2.registry ro = k.registry ro
    cases extOk
    · rw [initializeKernel_refused]; cases ro <;> rfl
    · rw [initializeKernel_accepted]; cases ro <;> rfl
  | callStep =>
    left
    show (step k).registry ro = k.registry ro
    unfold step
    split <;> cases ro <;> rfl
  | callFinalize =>
    left
    show (finalize k).registry ro = k.registry ro
    rw [finalize_eq]; cases ro <;> rfl

theorem initializeKernel_selView (h : Hooks) (extOk : Bool) (k : Kernel) :
    (initializeKernel h extOk k).2.selView = k.selView := by
  cases extOk
  · rw [initializeKernel_refused]; rfl
  · rw [initializeKernel_accepted]; rfl

theorem finalize_selView (k : Kernel) : (finalize k).selView = k.selView := by
  rw [finalize_eq]; rfl

theorem step_pointers (k : Kernel) (sr : SelRole) :
    (step k).dummy sr = k.dummy sr ∧
      ((step k).active sr = k.active sr ∨ (step k).active sr = k.dummy sr) := by
  unfold step
  split
  · exact ⟨by cases sr <;> rfl, Or.inl (by cases sr <;> rfl)⟩
  · exact ⟨by cases sr <;> rfl, Or.inr (by cases sr <;> rfl)⟩

/-- What one call does to the pointers of a role: the default stays; the active pointer
stays, or becomes the default, or a select makes it its loaded argument. -/
theorem apply_pointer_cases (op : Op) (k : Kernel) (sr : SelRole) :
    (op.apply k).dummy sr = k.dummy sr ∧
      ((op.apply k).active sr = k.active sr ∨ (op.apply k).active sr = k.dummy sr ∨
        (∃ h c, op = .callSelect h sr c ∧ (op.apply k).active sr = c ∧
          c ∈ k.registry sr.toRole)) := by
  cases op with
  | callLoad h r c =>
    obtain ⟨e1, e2⟩ := selView_role k _ (load_selView h r k c) sr
    exact ⟨e2, Or.inl e1⟩
  | callUnload r c =>
    obtain ⟨e1, e2⟩ := selView_role k _ (unload_selView r k c) sr
    exact ⟨e2, Or.inl e1⟩
  | callSelect h r c =>
    refine ⟨(select_keeps h r k c).2.2.1 sr, ?_⟩
    by_cases e : sr = r
    · subst e
      rcases select_active_mem h sr k c with e1 | ⟨e1, e2⟩
      · exact Or.inl e1
      · exact Or.inr (Or.inr ⟨h, c, rfl, e1, e2⟩)
    · exact Or.inl ((select_keeps h r k c).2.2.2.2 sr e)
  | callSet ch d => exact ⟨by cases ch <;> cases sr <;> rfl, Or.inl (by cases ch <;> cases sr <;> rfl)⟩
  | callInitialize h extOk =>
    obtain ⟨e1, e2⟩ := selView_role k _ (initializeKernel_selView h extOk k) sr
    exact ⟨e2, Or.inl e1⟩
  | callStep =>
    obtain ⟨e1, e2⟩ := step_pointers k sr
    exact ⟨e1, e2.elim Or.inl (fun e => Or.inr (Or.inl e))⟩
  | callFinalize =>
    obtain ⟨e1, e2⟩ := selView_role k _ (finalize_selView k) sr
    exact ⟨e2, Or.inl e1⟩

theorem pointedAt_toRole (k : Kernel) (sr : SelRole) :
    k.pointedAt sr.toRole = [k.active sr, k.dummy sr] := by
  cases sr <;> rfl

theorem apply_activeLoaded (op : Op) (k : Kernel) (hk : ActiveLoaded k)
    (hg : op.sparesActive k = true) : ActiveLoaded (op.apply k) := by
  intro sr
  obtain ⟨hd, ha⟩ := apply_pointer_cases op k sr
  have hold : k.active sr ∈ k.registry sr.toRole := (hk sr).1
  have hdum : k.dummy sr ∈ k.registry sr.toRole := (hk sr).2
  rcases apply_registry_cases op k sr.toRole with e | ⟨h, c, _, e⟩ | ⟨c, hop, e⟩
  · rw [e, hd]
    refine ⟨?_, hdum⟩
    rcases ha with a | a | ⟨_, c, _, a, hc⟩
    · rw [a]; exact hold
    · rw [a]; exact hdum
    · rw [a]; exact hc
  · rw [e, hd]
    refine ⟨List.mem_append_left _ ?_, List.mem_append_left _ hdum⟩
    rcases ha with a | a | ⟨_, c, _, a, hc⟩
    · rw [a]; exact hold
    · rw [a]; exact hdum
    · rw [a]; exact hc
  · subst hop
    have hp : c ∉ k.pointedAt sr.toRole := by simpa [Op.sparesActive] using hg
    rw [pointedAt_toRole] at hp
    have h1 : k.active sr ≠ c := fun e1 => hp (by simp [e1])
    have h2 : k.dummy sr ≠ c := fun e2 => hp (by simp [e2])
    rw [e, hd]
    refine ⟨?_, (List.mem_erase_of_ne h2).mpr hdum⟩
    rcases ha with a | a | ⟨_, _, hsel, _, _⟩
    · rw [a]; exact (List.mem_erase_of_ne h1).mpr hold
    · rw [a]; exact (List.mem_erase_of_ne h2).mpr hdum
    · cases hsel

theorem apply_registriesNodup (op : Op) (k : Kernel) (hk : RegistriesNodup k)
    (hg : op.loadsFresh k = true) : RegistriesNodup (op.apply k) := by
  intro ro
  rcases apply_registry_cases op k ro with e | ⟨h, c, hop, e⟩ | ⟨c, _, e⟩
  · rw [e]; exact hk ro
  · subst hop
    have hc : c ∉ k.registry ro := by simpa [Op.loadsFresh] using hg
    rw [e]
    exact List.Nodup.append (hk ro) (List.nodup_singleton c) (by simpa using hc)
  · rw [e]; exact (hk ro).erase c

theorem runGuarded_inv (I : Kernel → Prop) (g : Kernel → Op → Bool)
    (hstep : ∀ op k, I k → g k op = true → I (op.apply k)) (ops : List Op) (k : Kernel)
    (hk : I k) (hg : runGuarded g ops k = true) : I (run ops k) := by
  induction ops generalizing k with
  | nil => exact hk
  | cons op ops ih =>
    simp only [runGuarded, Bool.and_eq_true] at hg
    exact ih (op.apply k) (hstep op k hk hg.1) hg.2

theorem BaseKernel_registry (h : Hooks) (ro : Role) :
    (BaseKernel h).registry ro = (BaseKernel.defaults h).registry ro := by
  rw [← frame_registry, BaseKernel_frame]

theorem BaseKernel_selView (h : Hooks) :
    (BaseKernel h).selView = BaseKernel.members.selView := by
  rw [← frame_selView, BaseKernel_frame, (BaseKernel_defaults_facts h).1]

theorem BaseKernel_registriesNodup (h : Hooks) : RegistriesNodup (BaseKernel h) := by
  intro ro
  rw [BaseKernel_registry]
  obtain ⟨_, _, _, fsup, fc, fg, fe, fx, fs⟩ := BaseKernel_defaults_facts h
  cases ro
  · show (BaseKernel.defaults h).controllers.Nodup
    rw [fc]; split <;> simp
  · show (BaseKernel.defaults h).generators.Nodup
    rw [fg]; split <;> simp
  · show (BaseKernel.defaults h).estimators.Nodup
    rw [fe]; split <;> simp
  · show (BaseKernel.defaults h).sensors.Nodup
    rw [fs]; split <;> simp
  · show (BaseKernel.defaults h).effectors.Nodup
    rw [fx]; split <;> simp
  · show (BaseKernel.defaults h).supports.Nodup
    rw [fsup]; simp

theorem BaseKernel_activeLoaded (h : Hooks)
    (he : ∀ sr, h.enableAspect ((BaseKernel h).dummy sr) = true) :
    ActiveLoaded (BaseKernel h) := by
  intro sr
  obtain ⟨e1, e2⟩ := selView_role BaseKernel.members (BaseKernel h) (BaseKernel_selView h) sr
  have he1 := he sr
  rw [e2] at he1
  rw [e1, e2, BaseKernel_registry]
  obtain ⟨_, _, _, _, fc, fg, fe, fx, fs⟩ := BaseKernel_defaults_facts h
  cases sr
  · have he0 : h.enableAspect 0 = true := he1
    show (0 : Comp) ∈ (BaseKernel.defaults h).controllers ∧
      (0 : Comp) ∈ (BaseKernel.defaults h).controllers
    rw [fc, he0]; simp
  · have he0 : h.enableAspect 1 = true := he1
    show (1 : Comp) ∈ (BaseKernel.defaults h).generators ∧
      (1 : Comp) ∈ (BaseKernel.defaults h).generators
    rw [fg, he0]; simp
  · have he0 : h.enableAspect 2 = true := he1
    show (2 : Comp) ∈ (BaseKernel.defaults h).estimators ∧
      (2 : Comp) ∈ (BaseKernel.defaults h).estimators
    rw [fe, he0]; simp
  · have he0 : h.enableAspect 4 = true := he1
    show (4 : Comp) ∈ (BaseKernel.defaults h).sensors ∧
      (4 : Comp) ∈ (BaseKernel.defaults h).sensors
    rw [fs, he0]; simp
  · have he0 : h.enableAspect 3 = true := he1
    show (3 : Comp) ∈ (BaseKernel.defaults h).effectors ∧
      (3 : Comp) ∈ (BaseKernel.defaults h).effectors
    rw [fx, he0]; simp

/-- C28, the claim as stated fails: on a freshly constructed kernel (defaults enabled,
kernel stopped) `unloadController` of the default controller, which is the active
controller, returns true; afterwards that component is still the active controller and
is not in the Controller registry. -/
theorem unload_active_stays_active :
    (∀ sr, Hooks.accept.enableAspect ((BaseKernel Hooks.accept).dummy sr) = true) ∧
      (BaseKernel Hooks.accept).active .Controller = 0 ∧
      (unload .Controller (BaseKernel Hooks.accept) 0).1 = true ∧
      Reachable unloadedDefaultKernel ∧
      unloadedDefaultKernel.active .Controller = 0 ∧
      unloadedDefaultKernel.active .Controller ∉
        unloadedDefaultKernel.registry SelRole.Controller.toRole :=
  ⟨fun _ => rfl, by decide, by decide, ⟨Hooks.accept, _, rfl⟩, by decide, by decide⟩

/-- C28 as amended: in every state reached from construction (with the enableAspect of
the defaults succeeding) by any sequence of load, unload, select, setX, initialize, step
and finalize calls in which no unload is applied to the component that is active or to
the default component of its role, the active component of each selectable role is a
member of the registry of that role. -/
theorem active_stays_loaded (h : Hooks) (ops : List Op)
    (he : ∀ sr, h.enableAspect ((BaseKernel h).dummy sr) = true)
    (hg : runGuarded Op.sparesActive ops (BaseKernel h) = true) :
    ∀ sr, (run ops (BaseKernel h)).active sr ∈ (run ops (BaseKernel h)).registry sr.toRole :=
  fun sr =>
    (runGuarded_inv ActiveLoaded Op.sparesActive apply_activeLoaded ops (BaseKernel h)
      (BaseKernel_activeLoaded h he) hg sr).1

theorem active_stays_loaded_witness :
    (∀ sr, Hooks.accept.enableAspect ((BaseKernel Hooks.accept).dummy sr) = true) ∧
      runGuarded Op.sparesActive sparingSession (BaseKernel Hooks.accept) = true ∧
      ∀ sr, (run sparingSession (BaseKernel Hooks.accept)).active sr ∈
        (run sparingSession (BaseKernel Hooks.accept)).registry sr.toRole :=
  ⟨fun _ => rfl, by decide,
    active_stays_loaded Hooks.accept sparingSession (fun _ => rfl) (by decide)⟩

/-- C29, the claim as stated fails: after two successful `loadSensor(7)` calls on the
constructed kernel the Sensor registry holds component 7 twice. -/
theorem load_twice_registers_twice :
    Reachable reloadedKernel ∧ reloadedKernel.registry .Sensor = [4, 7, 7] ∧
      (reloadedKernel.registry .Sensor).count 7 = 2 ∧
      ¬ (reloadedKernel.registry .Sensor).Nodup :=
  ⟨⟨Hooks.accept, _, rfl⟩, by decide, by decide, by decide⟩

/-- C29 as amended: in every state reached from construction by any sequence of calls in
which load is never applied to a component that is already in the registry of the role,
each registry contains every component at most once (a load does not look the
component up, so loading a loaded component again gives it a second entry). -/
theorem registries_nodup (h : Hooks) (ops : List Op)
    (hg : runGuarded Op.loadsFresh ops (BaseKernel h) = true) :
    ∀ ro, ((run ops (BaseKernel h)).registry ro).Nodup :=
  runGuarded_inv RegistriesNodup Op.loadsFresh apply_registriesNodup ops (BaseKernel h)
    (BaseKernel_registriesNodup h) hg

theorem registries_nodup_witness :
    runGuarded Op.loadsFresh freshSession (BaseKernel Hooks.accept) = true ∧
      ∀ ro, ((run freshSession (BaseKernel Hooks.accept)).registry ro).Nodup :=
  ⟨by decide, registries_nodup Hooks.accept freshSession (by decide)⟩

/-! ## Results that do not depend on componentStartup -/

/-- C32: `initialize()` returns true exactly when the initialize of the execution
strategy returns true, whatever the componentStartup calls of the Support components
return: result, calls and kernel are the same for any two answers of the components,
and when the extension accepts there is no componentShutdown call. -/
theorem initialize_ignores_startup (h : Hooks) (extOk : Bool) (k : Kernel) :
    (initializeKernel h extOk k).1 = extOk ∧
      (∀ h2 : Hooks, initializeKernel h2 extOk k = initializeKernel h extOk k) ∧
      shutdownOrder (newCalls k (initializeKernel h true k).2) = [] := by
  refine ⟨?_, ?_, ?_⟩
  · cases extOk
    · rw [initializeKernel_refused]
    · rw [initializeKernel_accepted]
  · intro h2
    cases extOk
    · rw [initializeKernel_refused, initializeKernel_refused]
    · rw [initializeKernel_accepted, initializeKernel_accepted]
  · rw [newCalls_initialize_accepted]
    simp [shutdownOrder_append, shutdownOrder, shutdownOrder_map_startup]

theorem select_of_active (h : Hooks) (r : SelRole) (k : Kernel) (c : Comp)
    (hc : k.active r = c) (hl : c ∈ k.registry r.toRole) (hr : isRunning k = true) :
    (select h r k c).1 = true ∧
      (select h r k c).2.calls = k.calls ++
        Call.componentShutdown c :: Call.componentStartup c ::
          (if h.componentStartup c then [] else [Call.componentStartup c]) := by
  cases r <;> cases hs : h.componentStartup c <;>
    simp_all [select, selectController, selectGenerator, selectEstimator, selectSensor,
      selectEffector, isLoadedController, isLoadedGenerator, isLoadedEstimator,
      isLoadedSensor, isLoadedEffector, Kernel.registry, SelRole.toRole, Kernel.active,
      componentStartup, componentShutdown]

/-- C33: for every selectable role, with the kernel running, selecting the component
`c` that is already active (and loaded) returns true and leaves `c` active, whatever
the componentStartup of `c` returns; the calls are componentShutdown on `c`, then
componentStartup on `c`, and once more componentStartup on `c` when the first one
returned false. -/
theorem select_active_again (h : Hooks) (r : SelRole) (k : Kernel)
    (hl : k.active r ∈ k.registry r.toRole) (hr : isRunning k = true) :
    (select h r k (k.active r)).1 = true ∧
      (select h r k (k.active r)).2.active r = k.active r ∧
      newCalls k (select h r k (k.active r)).2 =
        Call.componentShutdown (k.active r) :: Call.componentStartup (k.active r) ::
          (if h.componentStartup (k.active r) then []
            else [Call.componentStartup (k.active r)]) := by
  obtain ⟨e1, e2⟩ := select_of_active h r k (k.active r) rfl hl hr
  refine ⟨e1, ?_, newCalls_of_append _ _ _ e2⟩
  rcases select_active_cases h r k (k.active r) with e | e <;> exact e

theorem select_active_again_witness :
    twoSensorKernel.active .Sensor ∈ twoSensorKernel.registry SelRole.Sensor.toRole ∧
      isRunning twoSensorKernel = true ∧
      ((select Hooks.refuse .Sensor twoSensorKernel (twoSensorKernel.active .Sensor)).1 = true ∧
        (select Hooks.refuse .Sensor twoSensorKernel
          (twoSensorKernel.active .Sensor)).2.active .Sensor = twoSensorKernel.active .Sensor ∧
        newCalls twoSensorKernel
            (select Hooks.refuse .Sensor twoSensorKernel (twoSensorKernel.active .Sensor)).2 =
          Call.componentShutdown (twoSensorKernel.active .Sensor) ::
            Call.componentStartup (twoSensorKernel.active .Sensor) ::
              (if Hooks.refuse.componentStartup (twoSensorKernel.active .Sensor) then []
                else [Call.componentStartup (twoSensorKernel.active .Sensor)])) :=
  ⟨by decide, rfl,
    select_active_again Hooks.refuse .Sensor twoSensorKernel (by decide) rfl⟩

/-! ## Bindings and the current data objects -/

end ORO_ControlKernel
